import Mathlib

/-!
Verification development for the biastools repository.

The computational core of the repository consists of two pure scoring
components, embedded here over exact rational arithmetic:

* the single-scale distortion corrector `calculatePsychologicalScore`
  (from `solutions/distortion-correction-formula/implementation/javascript/tutorial.md`,
  Step 1.1) together with the reusable listing `correctScoreBidirectional`
  (from `solutions/distortion-correction-formula/docs/algorithm-specification.md`, §7);

* the multi-category corrector `MultiCategoryDistortionCorrector`
  (from `solutions/multi-category-distortion-correction/implementation/javascript/multi-category-corrector.js`),
  whose methods are embedded as top-level functions taking the options
  record explicitly.

Modelling conventions:

* JavaScript numbers are modelled as exact rationals (`ℚ`); the single-scale
  entry point validates `Number.isInteger`, so its responses are `List ℤ`.
  The presentational `toFixed`/`parseFloat` rounding applied to the fields of
  the returned records is display formatting and is not modelled.
* `Math.sqrt` (used only for the `standardDeviation` statistic and the
  `relativeDistance` standardisation) has no exact rational counterpart, so
  the multi-category pipeline is parametrised by an arbitrary function
  `sqrtFn : ℚ → ℚ`; no claim below depends on its values.
* JavaScript objects / maps are modelled as association lists in insertion
  order; `Object.values` is `List.map Prod.snd`.
* Fallible code returns `Except`.  The multi-category entry point
  `correctMultiCategory` performs no validation and its numeric body cannot
  throw, so it always returns `Except.ok`; on an empty map JavaScript would
  produce `NaN` statistics (0/0) where the rational model yields 0 — still a
  returned batch, not an error, in both.
-/

/-! ### Single-scale corrector (tutorial.md, Step 1.1) -/

/-- Distortion classification of the single-scale corrector; the JS code uses
the strings \x7b"none", "high", "low", "both"\x7d. -/
inductive DistortionType where
  | none
  | high
  | low
  | both
deriving DecidableEq

/-- Result record of `calculatePsychologicalScore` (display rounding of the
score fields is omitted). -/
structure ScoreResult where
  totalScore : ℤ
  normalizedScore : ℚ
  correctedScore : ℚ
  responses5Count : ℕ
  responses1Count : ℕ
  threshold : ℤ
  distortionType : DistortionType
  totalQuestions : ℕ
  maxScore : ℤ
deriving DecidableEq

/-- Unvalidated body of `calculatePsychologicalScore` (tutorial.md lines 36-90).
The correction steps test `distortionType.includes('high')` and
`distortionType.includes('low')`; since the string `"both"` contains neither
`"high"` nor `"low"` as a substring, each correction fires exactly on its own
tag, which is what the two `if`s below encode. -/
def computeScore (responses : List ℤ) : ScoreResult :=
  let totalQuestions := responses.length
  let totalScore := responses.sum
  let minPossible : ℤ := (totalQuestions : ℤ) * 1
  let maxPossible : ℤ := (totalQuestions : ℤ) * 5
  let normalizedScore : ℚ :=
    (((totalScore : ℚ) - (minPossible : ℚ)) / ((maxPossible : ℚ) - (minPossible : ℚ))) * 4 + 1
  let responses5Count := responses.countP (fun r => decide (r = 5))
  let responses1Count := responses.countP (fun r => decide (r = 1))
  let threshold : ℤ := ⌈(totalQuestions : ℚ) * (7/10)⌉
  let distortionType : DistortionType :=
    if (responses5Count : ℤ) ≥ threshold ∧ (responses1Count : ℤ) ≥ threshold then .both
    else if (responses5Count : ℤ) ≥ threshold then .high
    else if (responses1Count : ℤ) ≥ threshold then .low
    else .none
  let afterHigh : ℚ :=
    if distortionType = .high then
      normalizedScore * (1 - ((responses5Count : ℚ) / (totalQuestions : ℚ)) * (3/10))
    else normalizedScore
  let afterLow : ℚ :=
    if distortionType = .low then
      afterHigh * (1 + ((responses1Count : ℚ) / (totalQuestions : ℚ)) * (3/10))
    else afterHigh
  let correctedScore : ℚ := max (10001/10000) (min afterLow 5)
  { totalScore := totalScore
    normalizedScore := normalizedScore
    correctedScore := correctedScore
    responses5Count := responses5Count
    responses1Count := responses1Count
    threshold := threshold
    distortionType := distortionType
    totalQuestions := totalQuestions
    maxScore := maxPossible }

/-- Entry point `calculatePsychologicalScore`: validation (tutorial.md lines
27-34) followed by the computation.  The `Array.isArray` check is type-level;
`Number.isInteger` makes the domain `List ℤ`. -/
def calculatePsychologicalScore (responses : List ℤ) : Except String ScoreResult :=
  if responses.length = 0 then
    .error (r"Responses must be a non-empty array")
  else if ¬ (∀ r ∈ responses, 1 ≤ r ∧ r ≤ 5) then
    .error (r"All responses must be integers between 1 and 5")
  else
    .ok (computeScore responses)

/-- Validity of a single-scale response list: non-empty, integers in [1,5]. -/
abbrev ValidResponses (responses : List ℤ) : Prop :=
  responses ≠ [] ∧ ∀ r ∈ responses, 1 ≤ r ∧ r ≤ 5

/-- Arithmetic mean of a response list, on the 1-5 scale. -/
def meanScore (responses : List ℤ) : ℚ :=
  (responses.sum : ℚ) / (responses.length : ℚ)

/-! ### Reusable listing `correctScoreBidirectional`
(algorithm-specification.md, §7) -/

/-- Metadata record returned by `correctScoreBidirectional`. -/
structure BidirectionalMeta where
  totalQuestions : ℕ
  responses5 : ℕ
  responses1 : ℕ
  threshold : ℤ
  highDistortionDetected : Bool
  lowDistortionDetected : Bool
deriving DecidableEq

/-- Result record of `correctScoreBidirectional`. -/
structure BidirectionalResult where
  correctedScore : ℚ
  meta : BidirectionalMeta
deriving DecidableEq

/-- Embeds `detectExtremeCounts`: total question count and counts of 5s and 1s. -/
def detectExtremeCounts (answers : List ℤ) : ℕ × ℕ × ℕ :=
  (answers.length,
   answers.countP (fun v => decide (v = 5)),
   answers.countP (fun v => decide (v = 1)))

/-- Embeds `applyHighEndCorrection`, including its inline `Math.max(1, ·)` clamp. -/
def applyHighEndCorrection (normalizedScore : ℚ) (responses5 totalQuestions : ℕ)
    (maxReduction : ℚ) : ℚ :=
  max 1 (normalizedScore * (1 - ((responses5 : ℚ) / (totalQuestions : ℚ)) * maxReduction))

/-- Embeds `applyLowEndBoost`, including its inline `Math.max(1.0001, ·)` clamp. -/
def applyLowEndBoost (normalizedScore : ℚ) (responses1 totalQuestions : ℕ)
    (maxIncrease : ℚ) : ℚ :=
  max (10001/10000) (normalizedScore * (1 + ((responses1 : ℚ) / (totalQuestions : ℚ)) * maxIncrease))

/-- Embeds `correctScoreBidirectional` (algorithm-specification.md lines
129-163): both corrections are applied sequentially when both are detected,
with an intermediate clamp after each step and a final clamp to
[1.0001, 5]. -/
def correctScoreBidirectional (answers : List ℤ) (normalizedScore : ℚ) :
    BidirectionalResult :=
  let counts := detectExtremeCounts answers
  let totalQuestions := counts.1
  let responses5 := counts.2.1
  let responses1 := counts.2.2
  let threshold : ℤ := ⌈(totalQuestions : ℚ) * (7/10)⌉
  let maxAdjustment : ℚ := 3/10
  let highDistortionDetected := decide ((responses5 : ℤ) ≥ threshold)
  let lowDistortionDetected := decide ((responses1 : ℤ) ≥ threshold)
  let score0 := normalizedScore
  let score1 := if highDistortionDetected then
      applyHighEndCorrection score0 responses5 totalQuestions maxAdjustment
    else score0
  let score2 := if lowDistortionDetected then
      applyLowEndBoost score1 responses1 totalQuestions maxAdjustment
    else score1
  let score3 := max (10001/10000) (min 5 score2)
  { correctedScore := score3
    meta :=
      { totalQuestions := totalQuestions
        responses5 := responses5
        responses1 := responses1
        threshold := threshold
        highDistortionDetected := highDistortionDetected
        lowDistortionDetected := lowDistortionDetected } }

/-! ### Multi-category corrector (multi-category-corrector.js) -/

/-- Constructor options of `MultiCategoryDistortionCorrector` (`debugMode`
controls logging only and is omitted). -/
structure CorrectorOptions where
  maxGlobalAdjustment : ℚ
  maxRelativeAdjustment : ℚ
  minScore : ℚ
  maxScore : ℚ
  zeroVarianceThreshold : ℚ
  categoryDifficultyAdjustment : ℚ
deriving DecidableEq

/-- Default option values from the constructor. -/
def defaultOptions : CorrectorOptions :=
  { maxGlobalAdjustment := 3/10
    maxRelativeAdjustment := 3/20
    minScore := 101/100
    maxScore := 5
    zeroVarianceThreshold := 1/100
    categoryDifficultyAdjustment := 2/25 }

/-- Category Difficulty Index table `categoryDifficultyIndices`, in object
insertion order (the order matters for the partial-match loop). -/
def cdiTable : List (String × ℚ) :=
  [(r"leadership", 3/20),
   (r"decision_making", 3/25),
   (r"strategic_thinking", 7/50),
   (r"problem_solving", 1/10),
   (r"critical_thinking", 2/25),
   (r"creativity_innovation", 3/50),
   (r"communication", 1/20),
   (r"emotional_intelligence", 3/100),
   (r"conflict_resolution", 1/25),
   (r"teamwork", 0),
   (r"customer_service", -(1/50)),
   (r"negotiation", 1/100),
   (r"adaptability", -(1/20)),
   (r"time_management", -(2/25)),
   (r"project_management", -(3/50)),
   (r"technical_skills", -(1/10)),
   (r"default", 0)]

/-- JavaScript `s.includes(sub)`: `sub` occurs as a contiguous substring of `s`. -/
def jsIncludes (s sub : String) : Bool :=
  decide (sub.data <:+: s.data)

/-- Normalisation `categoryId.toLowerCase().replace(/[_\-\s]/g, '_')`,
modelled character-wise over the string's character list. -/
def normalizeCategoryId (categoryId : String) : String :=
  String.mk (categoryId.data.map
    (fun c => if c = '_' ∨ c = '-' ∨ c.isWhitespace then '_' else c.toLower))

/-- Embeds `getCategoryDifficultyIndex`: direct key lookup, then the
partial-match loop over table entries in insertion order, then the
`default` value 0. -/
def getCategoryDifficultyIndex (categoryId : String) : ℚ :=
  let normalizedId := normalizeCategoryId categoryId
  match cdiTable.lookup normalizedId with
  | some v => v
  | Option.none =>
    match cdiTable.find? (fun p => jsIncludes normalizedId p.1 || jsIncludes p.1 normalizedId) with
    | some p => p.2
    | Option.none => 0

/-- Mean of a list of rationals (`0/0 = 0` models the `NaN` of an empty list). -/
def listMean (l : List ℚ) : ℚ := l.sum / (l.length : ℚ)

/-- Population variance of a list of rationals, denominator `length`. -/
def listVariance (l : List ℚ) : ℚ :=
  (l.map (fun v => (v - listMean l) ^ 2)).sum / (l.length : ℚ)

/-- Embeds `isZeroVarianceScenario`: variance of the category score values
below the `zeroVarianceThreshold` option. -/
def isZeroVarianceScenario (opts : CorrectorOptions)
    (categoryScores : List (String × ℚ)) : Bool :=
  decide (listVariance (categoryScores.map Prod.snd) < opts.zeroVarianceThreshold)

/-- Global statistics record returned by `calculateGlobalStats`. -/
structure GlobalStats where
  totalQuestions : ℕ
  globalResponses5 : ℕ
  globalResponses1 : ℕ
  responses5Percent : ℚ
  responses1Percent : ℚ
  globalMean : ℚ
  variance : ℚ
  standardDeviation : ℚ
deriving DecidableEq

/-- Embeds `calculateGlobalStats`: statistics over the concatenation of all
category response lists.  `Math.sqrt` is the parameter `sqrtFn`. -/
def calculateGlobalStats (sqrtFn : ℚ → ℚ)
    (categoryData : List (String × List ℚ)) : GlobalStats :=
  let allResponses := (categoryData.map Prod.snd).flatten
  let totalQuestions := allResponses.length
  let globalResponses5 := allResponses.countP (fun v => decide (v = 5))
  let globalResponses1 := allResponses.countP (fun v => decide (v = 1))
  let globalMean := allResponses.sum / (totalQuestions : ℚ)
  let variance :=
    (allResponses.map (fun v => (v - globalMean) ^ 2)).sum / (totalQuestions : ℚ)
  { totalQuestions := totalQuestions
    globalResponses5 := globalResponses5
    globalResponses1 := globalResponses1
    responses5Percent := (globalResponses5 : ℚ) / (totalQuestions : ℚ)
    responses1Percent := (globalResponses1 : ℚ) / (totalQuestions : ℚ)
    globalMean := globalMean
    variance := variance
    standardDeviation := sqrtFn variance }

/-- Response styles returned by `classifyResponseStyle`. -/
inductive ResponseStyle where
  | high_acquiescence
  | low_acquiescence
  | extreme_style
  | central_tendency
  | balanced
deriving DecidableEq

/-- Embeds `classifyResponseStyle` (multi-category-corrector.js lines 181-205):
a cascade of guards evaluated in source order, first match wins. -/
def classifyResponseStyle (s : GlobalStats) : ResponseStyle :=
  if s.responses5Percent ≥ 2/5 ∨ s.globalMean ≥ 21/5 then .high_acquiescence
  else if s.responses1Percent ≥ 2/5 ∨ s.globalMean ≤ 11/5 then .low_acquiescence
  else if s.responses5Percent + s.responses1Percent ≥ 3/5 ∧ s.variance < 3/2 then .extreme_style
  else if s.responses5Percent < 1/10 ∧ s.responses1Percent < 1/10 then .central_tendency
  else .balanced

/-- Embeds `calculateCategoryScores`: per-category mean of responses. -/
def calculateCategoryScores (categoryData : List (String × List ℚ)) :
    List (String × ℚ) :=
  categoryData.map (fun p => (p.1, p.2.sum / (p.2.length : ℚ)))

/-- Positioning record per category (`calculateCategoryPositioning`). -/
structure CategoryPosition where
  score : ℚ
  rank : ℕ
  percentileRank : ℚ
  relativeDistance : ℚ
  isAboveAverage : Bool
  distanceFromMean : ℚ
deriving DecidableEq

/-- Embeds `calculateCategoryPositioning`.  The JS comparator `(a, b) => b - a`
sorts scores descending; `indexOf` then yields the index of the first
occurrence of the category's score in the sorted list. -/
def calculateCategoryPositioning (sqrtFn : ℚ → ℚ)
    (categoryScores : List (String × ℚ)) : List (String × CategoryPosition) :=
  let scores := categoryScores.map Prod.snd
  let sortedScores := scores.insertionSort (fun a b => b ≤ a)
  let globalMean := scores.sum / (scores.length : ℚ)
  let variance := (scores.map (fun v => (v - globalMean) ^ 2)).sum / (scores.length : ℚ)
  let stdDev := max (1/2) (sqrtFn variance)
  categoryScores.map (fun p =>
    let score := p.2
    let rank := sortedScores.findIdx (fun x => decide (x = score)) + 1
    (p.1,
     { score := score
       rank := rank
       percentileRank := ((scores.length : ℚ) - (rank : ℚ) + 1) / (scores.length : ℚ)
       relativeDistance := (score - globalMean) / stdDev
       isAboveAverage := decide (score > globalMean)
       distanceFromMean := |score - globalMean| }))

/-- Embeds `calculateGlobalCorrection`: the style-dependent global factor,
clamped to [0.7, 1.3]. -/
def calculateGlobalCorrection (opts : CorrectorOptions) (responseStyle : ResponseStyle)
    (s : GlobalStats) : ℚ :=
  let globalFactor : ℚ :=
    match responseStyle with
    | .high_acquiescence => 1 - min opts.maxGlobalAdjustment (s.responses5Percent * (1/2))
    | .low_acquiescence => 1 + min opts.maxGlobalAdjustment (s.responses1Percent * (1/2))
    | .extreme_style => 1 - min (3/20) ((s.responses5Percent + s.responses1Percent) * (1/5))
    | .central_tendency => 21/20
    | .balanced => 1
  max (7/10) (min (13/10) globalFactor)

/-- Embeds `calculateRelativeFactor` (multi-category-corrector.js lines
296-346): the CDI branch in zero-variance mode (clamped to [0.92, 1.08]),
otherwise the style-dependent positional factor (clamped to [0.85, 1.15]). -/
def calculateRelativeFactor (opts : CorrectorOptions) (categoryPosition : CategoryPosition)
    (responseStyle : ResponseStyle) (categoryId : String) (isZeroVariance : Bool) : ℚ :=
  if isZeroVariance then
    let cdi := getCategoryDifficultyIndex categoryId
    max (23/25) (min (27/25) (1 - cdi * opts.categoryDifficultyAdjustment))
  else if responseStyle = .balanced then 1
  else
    let relativeFactor : ℚ :=
      if responseStyle = .high_acquiescence then
        (if categoryPosition.isAboveAverage then
           1 + categoryPosition.relativeDistance * (1/10)
         else
           1 - |categoryPosition.relativeDistance| * (1/20))
      else if responseStyle = .low_acquiescence then
        (if ¬ categoryPosition.isAboveAverage then
           1 - |categoryPosition.relativeDistance| * (1/10)
         else
           1 + categoryPosition.relativeDistance * (1/20))
      else if responseStyle = .extreme_style then
        1 + categoryPosition.relativeDistance * (1/20)
      else
        1 + categoryPosition.relativeDistance * (1/10)
    max (17/20) (min (23/20) relativeFactor)

/-- Per-category correction record produced by `applyCategoryCorrections`
(`adjustmentPercent` is a formatted string view of `totalAdjustment` and is
omitted). -/
structure CategoryResult where
  originalScore : ℚ
  correctedScore : ℚ
  globalFactor : ℚ
  relativeFactor : ℚ
  totalAdjustment : ℚ
  position : CategoryPosition
  categoryDifficultyIndex : Option ℚ
  zeroVarianceCorrection : Bool
deriving DecidableEq

/-- Embeds `applyCategoryCorrections` (multi-category-corrector.js lines
351-392): zero-variance detection over the positioned scores, then per
category the combined correction `score * globalFactor * relativeFactor`
clamped to [minScore, maxScore]. -/
def applyCategoryCorrections (opts : CorrectorOptions)
    (positioning : List (String × CategoryPosition)) (responseStyle : ResponseStyle)
    (globalFactor : ℚ) : List (String × CategoryResult) :=
  let categoryScores := positioning.map (fun p => (p.1, p.2.score))
  let isZeroVariance := isZeroVarianceScenario opts categoryScores
  positioning.map (fun p =>
    let relativeFactor := calculateRelativeFactor opts p.2 responseStyle p.1 isZeroVariance
    let originalScore := p.2.score
    let correctedScore :=
      max opts.minScore (min opts.maxScore (originalScore * globalFactor * relativeFactor))
    (p.1,
     { originalScore := originalScore
       correctedScore := correctedScore
       globalFactor := globalFactor
       relativeFactor := relativeFactor
       totalAdjustment := correctedScore / originalScore
       position := p.2
       categoryDifficultyIndex :=
         if isZeroVariance then some (getCategoryDifficultyIndex p.1) else Option.none
       zeroVarianceCorrection := isZeroVariance }))

/-- Batch result assembled by `correctMultiCategory`. -/
structure CorrectionBatch where
  correctedCategories : List (String × CategoryResult)
  originalCategories : List (String × ℚ)
  globalStats : GlobalStats
  responseStyle : ResponseStyle
  globalFactor : ℚ
  totalCategories : ℕ
  totalQuestions : ℕ
  correctionApplied : Bool
deriving DecidableEq

/-- Pure body of `correctMultiCategory` (multi-category-corrector.js lines
99-143): global analysis, positioning, correction, result assembly.  Note
that the method performs no input validation (`validateCategoryData` is never
called from it). -/
def buildCorrectionBatch (sqrtFn : ℚ → ℚ) (opts : CorrectorOptions)
    (categoryData : List (String × List ℚ)) : CorrectionBatch :=
  let globalStats := calculateGlobalStats sqrtFn categoryData
  let responseStyle := classifyResponseStyle globalStats
  let categoryScores := calculateCategoryScores categoryData
  let positioning := calculateCategoryPositioning sqrtFn categoryScores
  let globalFactor := calculateGlobalCorrection opts responseStyle globalStats
  let correctedCategories :=
    applyCategoryCorrections opts positioning responseStyle globalFactor
  { correctedCategories := correctedCategories
    originalCategories := categoryScores
    globalStats := globalStats
    responseStyle := responseStyle
    globalFactor := globalFactor
    totalCategories := categoryData.length
    totalQuestions := globalStats.totalQuestions
    correctionApplied := decide (globalFactor ≠ 1) || decide (responseStyle ≠ .balanced) }

/-- Entry point `correctMultiCategory`.  Its `try/catch` only rethrows; the
numeric body throws on no input (JavaScript division by zero yields `NaN`,
not an exception), so every call returns a batch. -/
def correctMultiCategory (sqrtFn : ℚ → ℚ) (opts : CorrectorOptions)
    (categoryData : List (String × List ℚ)) : Except String CorrectionBatch :=
  Except.ok (buildCorrectionBatch sqrtFn opts categoryData)

/-- Embeds `validateCategoryData` (multi-category-corrector.js lines 449-467):
only per-value checks are made (`typeof value === 'number'` is type-level
here); an empty map and empty category response lists pass, and the first
out-of-range value in iteration order raises the error. -/
def validateCategoryData (categoryData : List (String × List ℚ)) :
    Except String Bool :=
  match categoryData.find? (fun p => p.2.any (fun v => decide (v < 1) || decide (v > 5))) with
  | some p => .error ((r"Invalid response value for category ") ++ p.1)
  | Option.none => .ok true

/-- Validity of a single multi-category response value: an integer in [1,5]
(the contract's `int[1,5]`). -/
abbrev ValidResponse (v : ℚ) : Prop :=
  v = 1 ∨ v = 2 ∨ v = 3 ∨ v = 4 ∨ v = 5

/-- Validity of a category map: non-empty, every category non-empty with
responses that are integers in [1,5]. -/
abbrev ValidCategoryData (categoryData : List (String × List ℚ)) : Prop :=
  categoryData ≠ [] ∧ ∀ p ∈ categoryData, p.2 ≠ [] ∧ ∀ v ∈ p.2, ValidResponse v

/-! ### Helper definitions for the theorems -/

/-- Count of 5-responses of a single-scale list (`responses5Count`). -/
def count5Z (responses : List ℤ) : ℕ := responses.countP (fun r => decide (r = 5))

/-- Count of 1-responses of a single-scale list (`responses1Count`). -/
def count1Z (responses : List ℤ) : ℕ := responses.countP (fun r => decide (r = 1))

/-- Dynamic threshold `Math.ceil(totalQuestions * 0.7)`. -/
def thresholdOf (totalQuestions : ℕ) : ℤ := ⌈(totalQuestions : ℚ) * (7/10)⌉

/-! ### Generic counting and sum bounds for bounded response lists -/

theorem list_len_le_sum {R : Type} [LinearOrderedCommRing R] (l : List R)
    (h : ∀ r ∈ l, 1 ≤ r) : (l.length : R) ≤ l.sum := by
  induction l with
  | nil => simp
  | cons a t ih =>
    have ha := h a (List.mem_cons_self a t)
    have ht := ih (fun r hr => h r (List.mem_cons_of_mem a hr))
    simp only [List.sum_cons, List.length_cons]
    push_cast
    linarith

theorem list_sum_le_five_len {R : Type} [LinearOrderedCommRing R] (l : List R)
    (h : ∀ r ∈ l, r ≤ 5) : l.sum ≤ 5 * (l.length : R) := by
  induction l with
  | nil => simp
  | cons a t ih =>
    have ha := h a (List.mem_cons_self a t)
    have ht := ih (fun r hr => h r (List.mem_cons_of_mem a hr))
    simp only [List.sum_cons, List.length_cons]
    push_cast
    linarith

theorem list_len_add_four_count5_le_sum {R : Type} [LinearOrderedCommRing R]
    [DecidableEq R] (l : List R) (h : ∀ r ∈ l, 1 ≤ r) :
    (l.length : R) + 4 * ((l.countP (fun r => decide (r = 5)) : ℕ) : R) ≤ l.sum := by
  induction l with
  | nil => simp
  | cons a t ih =>
    have ha := h a (List.mem_cons_self a t)
    have ht := ih (fun r hr => h r (List.mem_cons_of_mem a hr))
    simp only [List.sum_cons, List.length_cons, List.countP_cons, decide_eq_true_eq]
    by_cases h5 : a = 5
    · rw [if_pos h5]
      push_cast
      linarith
    · rw [if_neg h5]
      push_cast
      linarith

theorem list_sum_le_four_len_add_count5 {R : Type} [LinearOrderedCommRing R]
    [DecidableEq R] (l : List R) (h : ∀ r ∈ l, r = 5 ∨ r ≤ 4) :
    l.sum ≤ 4 * (l.length : R) + ((l.countP (fun r => decide (r = 5)) : ℕ) : R) := by
  induction l with
  | nil => simp
  | cons a t ih =>
    have ha := h a (List.mem_cons_self a t)
    have ht := ih (fun r hr => h r (List.mem_cons_of_mem a hr))
    simp only [List.sum_cons, List.length_cons, List.countP_cons, decide_eq_true_eq]
    by_cases h5 : a = 5
    · rw [if_pos h5]
      push_cast
      rw [h5]
      linarith
    · have ha4 : a ≤ 4 := ha.resolve_left h5
      rw [if_neg h5]
      push_cast
      linarith

theorem list_two_len_sub_count1_le_sum {R : Type} [LinearOrderedCommRing R]
    [DecidableEq R] (l : List R) (h : ∀ r ∈ l, r = 1 ∨ 2 ≤ r) :
    2 * (l.length : R) - ((l.countP (fun r => decide (r = 1)) : ℕ) : R) ≤ l.sum := by
  induction l with
  | nil => simp
  | cons a t ih =>
    have ha := h a (List.mem_cons_self a t)
    have ht := ih (fun r hr => h r (List.mem_cons_of_mem a hr))
    simp only [List.sum_cons, List.length_cons, List.countP_cons, decide_eq_true_eq]
    by_cases h1 : a = 1
    · rw [if_pos h1]
      push_cast
      rw [h1]
      linarith
    · have ha2 : 2 ≤ a := ha.resolve_left h1
      rw [if_neg h1]
      push_cast
      linarith

theorem list_sum_le_five_len_sub_four_count1 {R : Type} [LinearOrderedCommRing R]
    [DecidableEq R] (l : List R) (h : ∀ r ∈ l, r ≤ 5) :
    l.sum ≤ 5 * (l.length : R) - 4 * ((l.countP (fun r => decide (r = 1)) : ℕ) : R) := by
  induction l with
  | nil => simp
  | cons a t ih =>
    have ha := h a (List.mem_cons_self a t)
    have ht := ih (fun r hr => h r (List.mem_cons_of_mem a hr))
    simp only [List.sum_cons, List.length_cons, List.countP_cons, decide_eq_true_eq]
    by_cases h1 : a = 1
    · rw [if_pos h1]
      push_cast
      rw [h1]
      linarith
    · rw [if_neg h1]
      push_cast
      linarith

theorem list_count5_add_count1_le_len {R : Type} [LinearOrderedCommRing R]
    [DecidableEq R] (l : List R) :
    l.countP (fun r => decide (r = 5)) + l.countP (fun r => decide (r = 1)) ≤ l.length := by
  induction l with
  | nil => simp
  | cons a t ih =>
    have h51 : ¬ ((5 : R) = 1) := by norm_num
    simp only [List.countP_cons, List.length_cons, decide_eq_true_eq]
    by_cases h5 : a = 5
    · have h1 : ¬ (a = 1) := by rw [h5]; exact h51
      rw [if_pos h5, if_neg h1]
      omega
    · by_cases h1 : a = 1
      · rw [if_neg h5, if_pos h1]
        omega
      · rw [if_neg h5, if_neg h1]
        omega

/-! ### Characterisation of `computeScore`'s fields -/

theorem computeScore_responses5Count (rs : List ℤ) :
    (computeScore rs).responses5Count = count5Z rs := rfl

theorem computeScore_responses1Count (rs : List ℤ) :
    (computeScore rs).responses1Count = count1Z rs := rfl

theorem computeScore_threshold (rs : List ℤ) :
    (computeScore rs).threshold = thresholdOf rs.length := rfl

theorem computeScore_distortionType (rs : List ℤ) :
    (computeScore rs).distortionType =
      (if (count5Z rs : ℤ) ≥ thresholdOf rs.length ∧ (count1Z rs : ℤ) ≥ thresholdOf rs.length
       then DistortionType.both
       else if (count5Z rs : ℤ) ≥ thresholdOf rs.length then DistortionType.high
       else if (count1Z rs : ℤ) ≥ thresholdOf rs.length then DistortionType.low
       else DistortionType.none) := rfl

theorem computeScore_correctedScore (rs : List ℤ) :
    (computeScore rs).correctedScore =
      max (10001/10000)
        (min
          (if (computeScore rs).distortionType = DistortionType.low then
             (if (computeScore rs).distortionType = DistortionType.high then
                (computeScore rs).normalizedScore *
                  (1 - ((count5Z rs : ℚ) / (rs.length : ℚ)) * (3/10))
              else (computeScore rs).normalizedScore) *
               (1 + ((count1Z rs : ℚ) / (rs.length : ℚ)) * (3/10))
           else
             (if (computeScore rs).distortionType = DistortionType.high then
                (computeScore rs).normalizedScore *
                  (1 - ((count5Z rs : ℚ) / (rs.length : ℚ)) * (3/10))
              else (computeScore rs).normalizedScore)) 5) := rfl

theorem normalizedScore_eq_mean (rs : List ℤ) (h : rs ≠ []) :
    (computeScore rs).normalizedScore = meanScore rs := by
  have hlen : rs.length ≠ 0 := fun hc => h (List.length_eq_zero.mp hc)
  have hn : ((rs.length : ℚ)) ≠ 0 := Nat.cast_ne_zero.mpr hlen
  show ((((rs.sum : ℤ) : ℚ) - (((rs.length : ℕ) : ℤ) * 1 : ℤ)) /
        ((((rs.length : ℕ) : ℤ) * 5 : ℤ) - (((rs.length : ℕ) : ℤ) * 1 : ℤ))) * 4 + 1 =
      (rs.sum : ℚ) / (rs.length : ℚ)
  push_cast
  rw [eq_div_iff hn]
  have hd : ((rs.length : ℚ)) * 5 - ((rs.length : ℚ)) * 1 = 4 * ((rs.length : ℚ)) := by ring
  rw [hd]
  field_simp
  ring

/-! ### Threshold and classification facts for the single-scale corrector -/

theorem threshold_ge (n : ℕ) : (n : ℚ) * (7/10) ≤ ((thresholdOf n : ℤ) : ℚ) :=
  Int.le_ceil _

theorem threshold_lt (n : ℕ) : ((thresholdOf n : ℤ) : ℚ) < (n : ℚ) * (7/10) + 1 :=
  Int.ceil_lt_add_one _

theorem count5Z_add_count1Z_le_length (rs : List ℤ) :
    count5Z rs + count1Z rs ≤ rs.length := by
  simpa [count5Z, count1Z] using list_count5_add_count1_le_len (R := ℤ) rs

/-- Both extreme counts can never simultaneously reach the 70% threshold on a
non-empty list. -/
theorem not_both_thresholds (rs : List ℤ) (hne : rs ≠ []) :
    ¬ ((count5Z rs : ℤ) ≥ thresholdOf rs.length ∧ (count1Z rs : ℤ) ≥ thresholdOf rs.length) := by
  rintro ⟨h5, h1⟩
  have hlen : 0 < rs.length := List.length_pos.mpr hne
  have hsum : count5Z rs + count1Z rs ≤ rs.length := count5Z_add_count1Z_le_length rs
  have ht := threshold_ge rs.length
  have h5q : ((thresholdOf rs.length : ℤ) : ℚ) ≤ ((count5Z rs : ℕ) : ℚ) := by
    exact_mod_cast h5
  have h1q : ((thresholdOf rs.length : ℤ) : ℚ) ≤ ((count1Z rs : ℕ) : ℚ) := by
    exact_mod_cast h1
  have hsq : ((count5Z rs : ℕ) : ℚ) + ((count1Z rs : ℕ) : ℚ) ≤ ((rs.length : ℕ) : ℚ) := by
    exact_mod_cast hsum
  have hlq : (1 : ℚ) ≤ ((rs.length : ℕ) : ℚ) := by exact_mod_cast hlen
  linarith

theorem distortionType_eq_high (rs : List ℤ) (hne : rs ≠ [])
    (h5 : (count5Z rs : ℤ) ≥ thresholdOf rs.length) :
    (computeScore rs).distortionType = DistortionType.high := by
  rw [computeScore_distortionType, if_neg (not_both_thresholds rs hne), if_pos h5]

theorem distortionType_eq_low (rs : List ℤ)
    (h5 : ¬ ((count5Z rs : ℤ) ≥ thresholdOf rs.length))
    (h1 : (count1Z rs : ℤ) ≥ thresholdOf rs.length) :
    (computeScore rs).distortionType = DistortionType.low := by
  rw [computeScore_distortionType, if_neg (fun hb => h5 hb.1), if_neg h5, if_pos h1]

theorem distortionType_eq_none (rs : List ℤ)
    (h5 : ¬ ((count5Z rs : ℤ) ≥ thresholdOf rs.length))
    (h1 : ¬ ((count1Z rs : ℤ) ≥ thresholdOf rs.length)) :
    (computeScore rs).distortionType = DistortionType.none := by
  rw [computeScore_distortionType, if_neg (fun hb => h5 hb.1), if_neg h5, if_neg h1]

theorem correctedScore_of_none (rs : List ℤ)
    (h5 : ¬ ((count5Z rs : ℤ) ≥ thresholdOf rs.length))
    (h1 : ¬ ((count1Z rs : ℤ) ≥ thresholdOf rs.length)) :
    (computeScore rs).correctedScore =
      max (10001/10000) (min (computeScore rs).normalizedScore 5) := by
  rw [computeScore_correctedScore, distortionType_eq_none rs h5 h1]
  simp

theorem correctedScore_of_high (rs : List ℤ) (hne : rs ≠ [])
    (h5 : (count5Z rs : ℤ) ≥ thresholdOf rs.length) :
    (computeScore rs).correctedScore =
      max (10001/10000)
        (min ((computeScore rs).normalizedScore *
          (1 - ((count5Z rs : ℚ) / (rs.length : ℚ)) * (3/10))) 5) := by
  rw [computeScore_correctedScore, distortionType_eq_high rs hne h5]
  simp

theorem correctedScore_of_low (rs : List ℤ)
    (h5 : ¬ ((count5Z rs : ℤ) ≥ thresholdOf rs.length))
    (h1 : (count1Z rs : ℤ) ≥ thresholdOf rs.length) :
    (computeScore rs).correctedScore =
      max (10001/10000)
        (min ((computeScore rs).normalizedScore *
          (1 + ((count1Z rs : ℚ) / (rs.length : ℚ)) * (3/10))) 5) := by
  rw [computeScore_correctedScore, distortionType_eq_low rs h5 h1]
  simp

/-! ### Mean bounds for valid single-scale inputs -/

theorem meanScore_le_five (rs : List ℤ) (hne : rs ≠ [])
    (hv : ∀ r ∈ rs, 1 ≤ r ∧ r ≤ 5) : meanScore rs ≤ 5 := by
  have hn : (0 : ℚ) < (rs.length : ℚ) := by
    exact_mod_cast List.length_pos.mpr hne
  have hs : ((rs.sum : ℤ) : ℚ) ≤ 5 * ((rs.length : ℕ) : ℚ) := by
    exact_mod_cast list_sum_le_five_len (R := ℤ) rs (fun r hr => (hv r hr).2)
  rw [meanScore, div_le_iff hn]
  linarith

theorem one_le_meanScore (rs : List ℤ) (hne : rs ≠ [])
    (hv : ∀ r ∈ rs, 1 ≤ r ∧ r ≤ 5) : 1 ≤ meanScore rs := by
  have hn : (0 : ℚ) < (rs.length : ℚ) := by
    exact_mod_cast List.length_pos.mpr hne
  have hs : ((rs.length : ℕ) : ℚ) ≤ ((rs.sum : ℤ) : ℚ) := by
    exact_mod_cast list_len_le_sum (R := ℤ) rs (fun r hr => (hv r hr).1)
  rw [meanScore, le_div_iff hn]
  linarith

theorem meanScore_ge_one_add_four_ratio5 (rs : List ℤ) (hne : rs ≠ [])
    (hv : ∀ r ∈ rs, 1 ≤ r ∧ r ≤ 5) :
    1 + 4 * ((count5Z rs : ℚ) / (rs.length : ℚ)) ≤ meanScore rs := by
  have hn : (0 : ℚ) < (rs.length : ℚ) := by
    exact_mod_cast List.length_pos.mpr hne
  have hs : ((rs.length : ℕ) : ℚ) + 4 * ((count5Z rs : ℕ) : ℚ) ≤ ((rs.sum : ℤ) : ℚ) := by
    exact_mod_cast list_len_add_four_count5_le_sum (R := ℤ) rs (fun r hr => (hv r hr).1)
  rw [meanScore, le_div_iff hn]
  have hexp : (1 + 4 * ((count5Z rs : ℚ) / (rs.length : ℚ))) * (rs.length : ℚ) =
      (rs.length : ℚ) + 4 * (count5Z rs : ℚ) := by
    field_simp
  rw [hexp]
  linarith

theorem meanScore_ge_two_sub_ratio1 (rs : List ℤ) (hne : rs ≠ [])
    (hv : ∀ r ∈ rs, 1 ≤ r ∧ r ≤ 5) :
    2 - ((count1Z rs : ℚ) / (rs.length : ℚ)) ≤ meanScore rs := by
  have hn : (0 : ℚ) < (rs.length : ℚ) := by
    exact_mod_cast List.length_pos.mpr hne
  have hs : 2 * ((rs.length : ℕ) : ℚ) - ((count1Z rs : ℕ) : ℚ) ≤ ((rs.sum : ℤ) : ℚ) := by
    have := list_two_len_sub_count1_le_sum (R := ℤ) rs (fun r hr => by
      rcases eq_or_lt_of_le (hv r hr).1 with h | h
      · exact Or.inl h.symm
      · exact Or.inr h)
    exact_mod_cast this
  rw [meanScore, le_div_iff hn]
  have hexp : (2 - ((count1Z rs : ℚ) / (rs.length : ℚ))) * (rs.length : ℚ) =
      2 * (rs.length : ℚ) - (count1Z rs : ℚ) := by
    field_simp
  rw [hexp]
  linarith

theorem ratio5_nonneg (rs : List ℤ) : 0 ≤ (count5Z rs : ℚ) / (rs.length : ℚ) :=
  div_nonneg (Nat.cast_nonneg _) (Nat.cast_nonneg _)

theorem ratio1_nonneg (rs : List ℤ) : 0 ≤ (count1Z rs : ℚ) / (rs.length : ℚ) :=
  div_nonneg (Nat.cast_nonneg _) (Nat.cast_nonneg _)

theorem ratio5_le_one (rs : List ℤ) : (count5Z rs : ℚ) / (rs.length : ℚ) ≤ 1 := by
  rcases Nat.eq_zero_or_pos rs.length with h | h
  · have : rs = [] := List.length_eq_zero.mp h
    subst this
    simp [count5Z]
  · have hn : (0 : ℚ) < (rs.length : ℚ) := by exact_mod_cast h
    rw [div_le_one hn]
    have : count5Z rs ≤ rs.length := by
      simpa [count5Z] using List.countP_le_length (l := rs) (p := fun r => decide (r = 5))
    exact_mod_cast this

theorem ratio1_le_one (rs : List ℤ) : (count1Z rs : ℚ) / (rs.length : ℚ) ≤ 1 := by
  rcases Nat.eq_zero_or_pos rs.length with h | h
  · have : rs = [] := List.length_eq_zero.mp h
    subst this
    simp [count1Z]
  · have hn : (0 : ℚ) < (rs.length : ℚ) := by exact_mod_cast h
    rw [div_le_one hn]
    have : count1Z rs ≤ rs.length := by
      simpa [count1Z] using List.countP_le_length (l := rs) (p := fun r => decide (r = 1))
    exact_mod_cast this

/-! ### Validation behaviour of the single-scale entry point -/

theorem calculate_ok (rs : List ℤ) (h : ValidResponses rs) :
    calculatePsychologicalScore rs = Except.ok (computeScore rs) := by
  obtain ⟨hne, hv⟩ := h
  unfold calculatePsychologicalScore
  rw [if_neg (fun hc => hne (List.length_eq_zero.mp hc)), if_neg (not_not_intro hv)]

theorem correctedScore_bounds (rs : List ℤ) :
    10001/10000 ≤ (computeScore rs).correctedScore ∧
    (computeScore rs).correctedScore ≤ 5 := by
  rw [computeScore_correctedScore]
  refine ⟨le_max_left _ _, ?_⟩
  exact max_le (by norm_num) (min_le_right _ _)

/-- C2: for every non-empty list of integer responses each in [1,5], the
normalized score computed by the rescaling formula equals exactly the
arithmetic mean of the responses. -/
theorem claim2_normalized_is_mean (rs : List ℤ) (h : ValidResponses rs) :
    calculatePsychologicalScore rs = Except.ok (computeScore rs) ∧
    (computeScore rs).normalizedScore = (rs.sum : ℚ) / (rs.length : ℚ) :=
  ⟨calculate_ok rs h, normalizedScore_eq_mean rs h.1⟩

/-- Witness for C2 at the concrete input [2,3,4] (mean 3). -/
theorem claim2_witness :
    ValidResponses [2, 3, 4] ∧ (computeScore [2, 3, 4]).normalizedScore = 3 := by
  refine ⟨by decide, ?_⟩
  have h := (claim2_normalized_is_mean [2, 3, 4] (by decide)).2
  rw [h]
  norm_num

/-- C9: on every valid input the distortion type is never `both`: the branch
requiring both counts at the threshold simultaneously is unsatisfiable, so
the result is one of `none`, `high`, `low`. -/
theorem claim9_never_both (rs : List ℤ) (h : ValidResponses rs) :
    (computeScore rs).distortionType ≠ DistortionType.both ∧
    ((computeScore rs).distortionType = DistortionType.none ∨
     (computeScore rs).distortionType = DistortionType.high ∨
     (computeScore rs).distortionType = DistortionType.low) := by
  have hnb := not_both_thresholds rs h.1
  rw [computeScore_distortionType, if_neg hnb]
  constructor
  · split_ifs <;> simp
  · split_ifs <;> simp

/-- Witness for C9 at the concrete input [5,5,5,5,1,1,1]. -/
theorem claim9_witness :
    ValidResponses [5, 5, 5, 5, 1, 1, 1] ∧
    (computeScore [5, 5, 5, 5, 1, 1, 1]).distortionType ≠ DistortionType.both :=
  ⟨by decide, (claim9_never_both [5, 5, 5, 5, 1, 1, 1] (by decide)).1⟩

/-- C4: when neither extreme count reaches the threshold, the corrected score
equals the normalized score exactly; the final clamp does not alter it. -/
theorem claim4_fixed_point (rs : List ℤ) (h : ValidResponses rs)
    (h5 : (count5Z rs : ℤ) < thresholdOf rs.length)
    (h1 : (count1Z rs : ℤ) < thresholdOf rs.length) :
    calculatePsychologicalScore rs = Except.ok (computeScore rs) ∧
    (computeScore rs).correctedScore = (computeScore rs).normalizedScore := by
  obtain ⟨hne, hv⟩ := h
  refine ⟨calculate_ok rs ⟨hne, hv⟩, ?_⟩
  have hn : (0 : ℚ) < (rs.length : ℚ) := by
    exact_mod_cast List.length_pos.mpr hne
  rw [correctedScore_of_none rs (not_le.mpr h5) (not_le.mpr h1),
    normalizedScore_eq_mean rs hne]
  have hup : meanScore rs ≤ 5 := meanScore_le_five rs hne hv
  have hr1 : (count1Z rs : ℚ) / (rs.length : ℚ) < 7/10 := by
    rw [div_lt_iff hn]
    have hc : ((count1Z rs : ℕ) : ℚ) + 1 ≤ ((thresholdOf rs.length : ℤ) : ℚ) := by
      exact_mod_cast h1
    have ht := threshold_lt rs.length
    linarith
  have hb := meanScore_ge_two_sub_ratio1 rs hne hv
  have hlow : (13 : ℚ)/10 ≤ meanScore rs := by linarith
  rw [min_eq_left hup, max_eq_right (by linarith)]

/-- Witness for C4 at the concrete input [3,3,3]. -/
theorem claim4_witness :
    ValidResponses [3, 3, 3] ∧
    (count5Z [3, 3, 3] : ℤ) < thresholdOf [3, 3, 3].length ∧
    (count1Z [3, 3, 3] : ℤ) < thresholdOf [3, 3, 3].length ∧
    (computeScore [3, 3, 3]).correctedScore = (computeScore [3, 3, 3]).normalizedScore := by
  have hthr : thresholdOf [3, 3, 3].length = 3 := by
    norm_num [thresholdOf, Int.ceil_eq_iff]
  have h5 : (count5Z [3, 3, 3] : ℤ) < thresholdOf [3, 3, 3].length := by
    rw [hthr]
    decide
  have h1 : (count1Z [3, 3, 3] : ℤ) < thresholdOf [3, 3, 3].length := by
    rw [hthr]
    decide
  exact ⟨by decide, h5, h1, (claim4_fixed_point [3, 3, 3] (by decide) h5 h1).2⟩

/-! ### Collapse of the final clamp in the high and low branches -/

theorem ratio5_ge_of_threshold (rs : List ℤ) (hne : rs ≠ [])
    (h5 : (count5Z rs : ℤ) ≥ thresholdOf rs.length) :
    7/10 ≤ (count5Z rs : ℚ) / (rs.length : ℚ) := by
  have hn : (0 : ℚ) < (rs.length : ℚ) := by
    exact_mod_cast List.length_pos.mpr hne
  have hc : ((thresholdOf rs.length : ℤ) : ℚ) ≤ ((count5Z rs : ℕ) : ℚ) := by
    exact_mod_cast h5
  have ht := threshold_ge rs.length
  rw [le_div_iff hn]
  linarith

theorem ratio1_ge_of_threshold (rs : List ℤ) (hne : rs ≠ [])
    (h1 : (count1Z rs : ℤ) ≥ thresholdOf rs.length) :
    7/10 ≤ (count1Z rs : ℚ) / (rs.length : ℚ) := by
  have hn : (0 : ℚ) < (rs.length : ℚ) := by
    exact_mod_cast List.length_pos.mpr hne
  have hc : ((thresholdOf rs.length : ℤ) : ℚ) ≤ ((count1Z rs : ℕ) : ℚ) := by
    exact_mod_cast h1
  have ht := threshold_ge rs.length
  rw [le_div_iff hn]
  linarith

theorem high_value_bounds (rs : List ℤ) (hne : rs ≠ [])
    (hv : ∀ r ∈ rs, 1 ≤ r ∧ r ≤ 5) :
    1 ≤ meanScore rs * (1 - (count5Z rs : ℚ) / (rs.length : ℚ) * (3/10)) ∧
    meanScore rs * (1 - (count5Z rs : ℚ) / (rs.length : ℚ) * (3/10)) ≤ 5 := by
  have hx0 := ratio5_nonneg rs
  have hx1 := ratio5_le_one rs
  have hm := meanScore_ge_one_add_four_ratio5 rs hne hv
  have hm5 := meanScore_le_five rs hne hv
  have hm1 := one_le_meanScore rs hne hv
  constructor
  · nlinarith [mul_le_mul_of_nonneg_right hm
      (show (0:ℚ) ≤ 1 - (count5Z rs : ℚ) / (rs.length : ℚ) * (3/10) by linarith)]
  · nlinarith [mul_le_mul_of_nonneg_left
      (show 1 - (count5Z rs : ℚ) / (rs.length : ℚ) * (3/10) ≤ 1 by linarith)
      (show (0:ℚ) ≤ meanScore rs by linarith)]

theorem low_value_bounds (rs : List ℤ) (hne : rs ≠ [])
    (hv : ∀ r ∈ rs, 1 ≤ r ∧ r ≤ 5) :
    13/10 ≤ meanScore rs * (1 + (count1Z rs : ℚ) / (rs.length : ℚ) * (3/10)) ∧
    meanScore rs * (1 + (count1Z rs : ℚ) / (rs.length : ℚ) * (3/10)) ≤ 5 := by
  have hx0 := ratio1_nonneg rs
  have hx1 := ratio1_le_one rs
  have hm := meanScore_ge_two_sub_ratio1 rs hne hv
  have hm1 := one_le_meanScore rs hne hv
  have hup : meanScore rs ≤ 5 - 4 * ((count1Z rs : ℚ) / (rs.length : ℚ)) := by
    have hn : (0 : ℚ) < (rs.length : ℚ) := by
      exact_mod_cast List.length_pos.mpr hne
    have hs : ((rs.sum : ℤ) : ℚ) ≤ 5 * ((rs.length : ℕ) : ℚ) - 4 * ((count1Z rs : ℕ) : ℚ) := by
      have := list_sum_le_five_len_sub_four_count1 (R := ℤ) rs (fun r hr => (hv r hr).2)
      exact_mod_cast this
    rw [meanScore, div_le_iff hn]
    have hexp : (5 - 4 * ((count1Z rs : ℚ) / (rs.length : ℚ))) * (rs.length : ℚ) =
        5 * (rs.length : ℚ) - 4 * (count1Z rs : ℚ) := by
      field_simp
    rw [hexp]
    linarith
  constructor
  · nlinarith [mul_le_mul_of_nonneg_right hm
      (show (0:ℚ) ≤ 1 + (count1Z rs : ℚ) / (rs.length : ℚ) * (3/10) by linarith)]
  · nlinarith [mul_le_mul_of_nonneg_right hup
      (show (0:ℚ) ≤ 1 + (count1Z rs : ℚ) / (rs.length : ℚ) * (3/10) by linarith)]

theorem correctedScore_high_value (rs : List ℤ) (h : ValidResponses rs)
    (h5 : (count5Z rs : ℤ) ≥ thresholdOf rs.length) :
    (computeScore rs).correctedScore =
      meanScore rs * (1 - (count5Z rs : ℚ) / (rs.length : ℚ) * (3/10)) := by
  obtain ⟨hne, hv⟩ := h
  obtain ⟨hl, hu⟩ := high_value_bounds rs hne hv
  have hr5 := ratio5_ge_of_threshold rs hne h5
  have hm := meanScore_ge_one_add_four_ratio5 rs hne hv
  have hl2 : (10001 : ℚ)/10000 ≤
      meanScore rs * (1 - (count5Z rs : ℚ) / (rs.length : ℚ) * (3/10)) := by
    have hx1 := ratio5_le_one rs
    nlinarith [mul_le_mul_of_nonneg_right hm
      (show (0:ℚ) ≤ 1 - (count5Z rs : ℚ) / (rs.length : ℚ) * (3/10) by linarith)]
  rw [correctedScore_of_high rs hne h5, normalizedScore_eq_mean rs hne,
    min_eq_left hu, max_eq_right hl2]

theorem correctedScore_low_value (rs : List ℤ) (h : ValidResponses rs)
    (h5 : ¬ ((count5Z rs : ℤ) ≥ thresholdOf rs.length))
    (h1 : (count1Z rs : ℤ) ≥ thresholdOf rs.length) :
    (computeScore rs).correctedScore =
      meanScore rs * (1 + (count1Z rs : ℚ) / (rs.length : ℚ) * (3/10)) := by
  obtain ⟨hne, hv⟩ := h
  obtain ⟨hl, hu⟩ := low_value_bounds rs hne hv
  rw [correctedScore_of_low rs h5 h1, normalizedScore_eq_mean rs hne,
    min_eq_left hu, max_eq_right (by linarith)]

/-! ### C7: the documented Scenario 2 -/

/-- Scenario 2 input of the spec: seven 5s, then 3, 2, 4. -/
def c7responses : List ℤ := [5, 5, 5, 5, 5, 5, 5, 3, 2, 4]

theorem c7_threshold : thresholdOf c7responses.length = 7 := by
  norm_num [c7responses, thresholdOf, Int.ceil_eq_iff]

theorem c7_high : (count5Z c7responses : ℤ) ≥ thresholdOf c7responses.length := by
  rw [c7_threshold]
  decide

theorem c7_mean : meanScore c7responses = 22/5 := by
  have hsum : c7responses.sum = 44 := by decide
  have hlen : c7responses.length = 10 := by decide
  rw [meanScore, hsum, hlen]
  norm_num

theorem c7_corrected : (computeScore c7responses).correctedScore = 869/250 := by
  rw [correctedScore_high_value c7responses ⟨by decide, by decide⟩ c7_high, c7_mean,
    show count5Z c7responses = 7 from by decide,
    show c7responses.length = 10 from by decide]
  norm_num

/-- C7 counterexample: the claimed values `normalizedScore = 39/10` and
`correctedScore = 3081/1000` are false at the given input — the responses sum
to 44, not 39, so the mean is 4.4 and the corrected score 3.476. -/
theorem claim7_counterexample :
    calculatePsychologicalScore c7responses = Except.ok (computeScore c7responses) ∧
    (computeScore c7responses).distortionType = DistortionType.high ∧
    c7responses.sum = 44 ∧
    ¬ ((computeScore c7responses).normalizedScore = 39/10) ∧
    ¬ ((computeScore c7responses).correctedScore = 3081/1000) := by
  refine ⟨calculate_ok c7responses ⟨by decide, by decide⟩,
    distortionType_eq_high c7responses (by decide) c7_high, by decide, ?_, ?_⟩
  · rw [normalizedScore_eq_mean c7responses (by decide), c7_mean]
    norm_num
  · rw [c7_corrected]
    norm_num

/-- C7 amended: at Scenario 2's input the distortion type is `high`, the
threshold is 7, and with the true sum 44 the normalized score is the mean
44/10 = 4.4 and the corrected score is 4.4 * (1 - 0.7*0.3) = 4.4 * 0.79 =
3.476. -/
theorem claim7_amended :
    calculatePsychologicalScore c7responses = Except.ok (computeScore c7responses) ∧
    (computeScore c7responses).distortionType = DistortionType.high ∧
    (computeScore c7responses).threshold = 7 ∧
    (computeScore c7responses).responses5Count = 7 ∧
    (computeScore c7responses).normalizedScore = meanScore c7responses ∧
    meanScore c7responses = 44/10 ∧
    (computeScore c7responses).correctedScore = (44/10) * (1 - (7/10) * (3/10)) ∧
    (44/10 : ℚ) * (1 - (7/10) * (3/10)) = 869/250 := by
  refine ⟨calculate_ok c7responses ⟨by decide, by decide⟩,
    distortionType_eq_high c7responses (by decide) c7_high, ?_, by decide,
    normalizedScore_eq_mean c7responses (by decide), ?_, ?_, by norm_num⟩
  · rw [computeScore_threshold]
    exact c7_threshold
  · rw [c7_mean]
    norm_num
  · rw [c7_corrected]
    norm_num

/-! ### C10: equivalence of the two single-scale listings -/

theorem correctScoreBidirectional_correctedScore (a : List ℤ) (norm : ℚ) :
    (correctScoreBidirectional a norm).correctedScore =
      max (10001/10000) (min 5
        (if decide ((count1Z a : ℤ) ≥ thresholdOf a.length) then
           applyLowEndBoost
             (if decide ((count5Z a : ℤ) ≥ thresholdOf a.length) then
                applyHighEndCorrection norm (count5Z a) a.length (3/10)
              else norm)
             (count1Z a) a.length (3/10)
         else
           (if decide ((count5Z a : ℤ) ≥ thresholdOf a.length) then
              applyHighEndCorrection norm (count5Z a) a.length (3/10)
            else norm))) := rfl

/-- C10: fed with the response mean, `correctScoreBidirectional` (with its
intermediate clamps after the high-end and low-end steps) returns exactly the
corrected score of `calculatePsychologicalScore`'s listing on every valid
input; the intermediate clamps never bind there. -/
theorem claim10_refinement (rs : List ℤ) (h : ValidResponses rs) :
    (correctScoreBidirectional rs (meanScore rs)).correctedScore =
      (computeScore rs).correctedScore ∧
    ((count5Z rs : ℤ) ≥ thresholdOf rs.length →
      1 ≤ meanScore rs * (1 - (count5Z rs : ℚ) / (rs.length : ℚ) * (3/10))) ∧
    ((count1Z rs : ℤ) ≥ thresholdOf rs.length →
      10001/10000 ≤ meanScore rs * (1 + (count1Z rs : ℚ) / (rs.length : ℚ) * (3/10))) := by
  obtain ⟨hne, hv⟩ := h
  have hb1 := (high_value_bounds rs hne hv).1
  have hb2 := (low_value_bounds rs hne hv).1
  refine ⟨?_, fun _ => hb1, fun _ => by linarith⟩
  rw [correctScoreBidirectional_correctedScore]
  by_cases h5 : (count5Z rs : ℤ) ≥ thresholdOf rs.length
  · have h1 : ¬ ((count1Z rs : ℤ) ≥ thresholdOf rs.length) :=
      fun hc => not_both_thresholds rs hne ⟨h5, hc⟩
    simp only [decide_eq_true_eq, if_pos h5, if_neg h1]
    have hnb : (10001 : ℚ)/10000 ≤
        meanScore rs * (1 - (count5Z rs : ℚ) / (rs.length : ℚ) * (3/10)) := by
      have hr5 := ratio5_ge_of_threshold rs hne h5
      have hm := meanScore_ge_one_add_four_ratio5 rs hne hv
      have hx1 := ratio5_le_one rs
      nlinarith [mul_le_mul_of_nonneg_right hm
        (show (0:ℚ) ≤ 1 - (count5Z rs : ℚ) / (rs.length : ℚ) * (3/10) by linarith)]
    have einner : applyHighEndCorrection (meanScore rs) (count5Z rs) rs.length (3/10) =
        meanScore rs * (1 - (count5Z rs : ℚ) / (rs.length : ℚ) * (3/10)) := by
      unfold applyHighEndCorrection
      exact max_eq_right (by linarith)
    rw [einner, min_eq_right ((high_value_bounds rs hne hv).2), max_eq_right hnb,
      correctedScore_high_value rs ⟨hne, hv⟩ h5]
  · by_cases h1 : (count1Z rs : ℤ) ≥ thresholdOf rs.length
    · simp only [decide_eq_true_eq, if_pos h1, if_neg h5]
      have einner : applyLowEndBoost (meanScore rs) (count1Z rs) rs.length (3/10) =
          meanScore rs * (1 + (count1Z rs : ℚ) / (rs.length : ℚ) * (3/10)) := by
        unfold applyLowEndBoost
        exact max_eq_right (by linarith)
      rw [einner, min_eq_right ((low_value_bounds rs hne hv).2),
        max_eq_right (by linarith), correctedScore_low_value rs ⟨hne, hv⟩ h5 h1]
    · simp only [decide_eq_true_eq, if_neg h5, if_neg h1]
      rw [correctedScore_of_none rs h5 h1, normalizedScore_eq_mean rs hne, min_comm]

/-- Witness for C10 at the concrete input of Scenario 2. -/
theorem claim10_witness :
    ValidResponses c7responses ∧
    (correctScoreBidirectional c7responses (meanScore c7responses)).correctedScore =
      (computeScore c7responses).correctedScore :=
  ⟨⟨by decide, by decide⟩, (claim10_refinement c7responses ⟨by decide, by decide⟩).1⟩

/-! ### C8: monotonicity in the extreme counts -/

theorem applyHighEndCorrection_anti (norm : ℚ) (c5a c5b n : ℕ) (h : c5a ≤ c5b)
    (hnorm : 0 ≤ norm) :
    applyHighEndCorrection norm c5b n (3/10) ≤ applyHighEndCorrection norm c5a n (3/10) := by
  unfold applyHighEndCorrection
  apply max_le_max le_rfl
  have hdiv : (c5a : ℚ) / (n : ℚ) ≤ (c5b : ℚ) / (n : ℚ) := by
    rw [div_eq_mul_inv, div_eq_mul_inv]
    exact mul_le_mul_of_nonneg_right (by exact_mod_cast h) (inv_nonneg.mpr (Nat.cast_nonneg n))
  apply mul_le_mul_of_nonneg_left _ hnorm
  linarith

theorem applyLowEndBoost_mono (norm : ℚ) (c1a c1b n : ℕ) (h : c1a ≤ c1b)
    (hnorm : 0 ≤ norm) :
    applyLowEndBoost norm c1a n (3/10) ≤ applyLowEndBoost norm c1b n (3/10) := by
  unfold applyLowEndBoost
  apply max_le_max le_rfl
  have hdiv : (c1a : ℚ) / (n : ℚ) ≤ (c1b : ℚ) / (n : ℚ) := by
    rw [div_eq_mul_inv, div_eq_mul_inv]
    exact mul_le_mul_of_nonneg_right (by exact_mod_cast h) (inv_nonneg.mpr (Nat.cast_nonneg n))
  apply mul_le_mul_of_nonneg_left _ hnorm
  linarith

/-- C8 amended: the monotone-direction property holds for the correction step
itself, with the input `normalizedScore` held fixed: for two answer sets of
the same length and the same normalized score, increasing the count of 5s at
or above threshold (count of 1s below threshold) never increases the score
returned by `correctScoreBidirectional`, and increasing the count of 1s at or
above threshold (count of 5s below) never decreases it.  (As stated over
`calculatePsychologicalScore` the original claim is false, because changing a
response to 5 also raises the mean; see the counterexample.) -/
theorem claim8_amended (a1 a2 : List ℤ) (norm : ℚ) (hlen : a1.length = a2.length)
    (hnorm : 0 ≤ norm) :
    (((count5Z a1 : ℤ) ≥ thresholdOf a1.length) →
     ((count1Z a1 : ℤ) < thresholdOf a1.length) →
     ((count1Z a2 : ℤ) < thresholdOf a2.length) →
     count5Z a1 ≤ count5Z a2 →
     (correctScoreBidirectional a2 norm).correctedScore ≤
       (correctScoreBidirectional a1 norm).correctedScore) ∧
    (((count1Z a1 : ℤ) ≥ thresholdOf a1.length) →
     ((count5Z a1 : ℤ) < thresholdOf a1.length) →
     ((count5Z a2 : ℤ) < thresholdOf a2.length) →
     count1Z a1 ≤ count1Z a2 →
     (correctScoreBidirectional a1 norm).correctedScore ≤
       (correctScoreBidirectional a2 norm).correctedScore) := by
  constructor
  · intro h5a h1a h1b hc5
    have h5b : (count5Z a2 : ℤ) ≥ thresholdOf a2.length := by
      rw [← hlen]
      exact le_trans h5a (by exact_mod_cast hc5)
    rw [correctScoreBidirectional_correctedScore, correctScoreBidirectional_correctedScore]
    simp only [decide_eq_true_eq]
    rw [if_neg (not_le.mpr h1b), if_pos h5b, if_neg (not_le.mpr h1a), if_pos h5a, ← hlen]
    exact max_le_max le_rfl
      (min_le_min le_rfl (applyHighEndCorrection_anti norm _ _ _ hc5 hnorm))
  · intro h1a h5a h5b hc1
    have h1b : (count1Z a2 : ℤ) ≥ thresholdOf a2.length := by
      rw [← hlen]
      exact le_trans h1a (by exact_mod_cast hc1)
    rw [correctScoreBidirectional_correctedScore, correctScoreBidirectional_correctedScore]
    simp only [decide_eq_true_eq]
    rw [if_pos h1b, if_neg (not_le.mpr h5b), if_pos h1a, if_neg (not_le.mpr h5a), ← hlen]
    exact max_le_max le_rfl
      (min_le_min le_rfl (applyLowEndBoost_mono norm _ _ _ hc1 hnorm))

/-! ### C8 counterexample data -/

/-- Seven 5s and three 1s: count5 = 7 at the threshold 7 for N = 10. -/
def c8low : List ℤ := [5, 5, 5, 5, 5, 5, 5, 1, 1, 1]

/-- The same non-5 responses with one more 5: count5 = 8, N = 11, threshold 8. -/
def c8high : List ℤ := [5, 5, 5, 5, 5, 5, 5, 5, 1, 1, 1]

theorem c8low_threshold : thresholdOf c8low.length = 7 := by
  norm_num [c8low, thresholdOf, Int.ceil_eq_iff]

theorem c8high_threshold : thresholdOf c8high.length = 8 := by
  norm_num [c8high, thresholdOf, Int.ceil_eq_iff]

/-- C8 counterexample: both inputs are above threshold with the same non-5
responses, the second has one more 5, yet its returned corrected score is
strictly larger (3.002 against 1849/605 = 3.0562...), because the added 5
raises the mean by more than the correction factor shrinks. -/
theorem claim8_counterexample :
    ValidResponses c8low ∧ ValidResponses c8high ∧
    count5Z c8high = count5Z c8low + 1 ∧
    c8low.filter (fun r => !(decide (r = 5))) = c8high.filter (fun r => !(decide (r = 5))) ∧
    (count5Z c8low : ℤ) ≥ thresholdOf c8low.length ∧
    (count5Z c8high : ℤ) ≥ thresholdOf c8high.length ∧
    calculatePsychologicalScore c8low = Except.ok (computeScore c8low) ∧
    calculatePsychologicalScore c8high = Except.ok (computeScore c8high) ∧
    (computeScore c8low).correctedScore < (computeScore c8high).correctedScore := by
  have h5lo : (count5Z c8low : ℤ) ≥ thresholdOf c8low.length := by
    rw [c8low_threshold]
    decide
  have h5hi : (count5Z c8high : ℤ) ≥ thresholdOf c8high.length := by
    rw [c8high_threshold]
    decide
  have hlo : (computeScore c8low).correctedScore = 1501/500 := by
    rw [correctedScore_high_value c8low ⟨by decide, by decide⟩ h5lo, meanScore,
      show c8low.sum = 38 from by decide, show c8low.length = 10 from by decide,
      show count5Z c8low = 7 from by decide]
    norm_num
  have hhi : (computeScore c8high).correctedScore = 1849/605 := by
    rw [correctedScore_high_value c8high ⟨by decide, by decide⟩ h5hi, meanScore,
      show c8high.sum = 43 from by decide, show c8high.length = 11 from by decide,
      show count5Z c8high = 8 from by decide]
    norm_num
  refine ⟨by decide, by decide, by decide, by decide, h5lo, h5hi,
    calculate_ok c8low ⟨by decide, by decide⟩, calculate_ok c8high ⟨by decide, by decide⟩, ?_⟩
  rw [hlo, hhi]
  norm_num

/-! ### C8 amended witness data -/

def c8wa : List ℤ := [5, 5, 5, 5, 5, 5, 5, 1, 1, 3]

def c8wb : List ℤ := [5, 5, 5, 5, 5, 5, 5, 5, 1, 3]

def c8wc : List ℤ := [1, 1, 1, 1, 1, 1, 1, 5, 5, 3]

def c8wd : List ℤ := [1, 1, 1, 1, 1, 1, 1, 1, 5, 3]

/-- Witness for the amended C8 at concrete inputs of length 10. -/
theorem claim8_amended_witness :
    (correctScoreBidirectional c8wb 4).correctedScore ≤
      (correctScoreBidirectional c8wa 4).correctedScore ∧
    (correctScoreBidirectional c8wc 2).correctedScore ≤
      (correctScoreBidirectional c8wd 2).correctedScore := by
  have hthra : thresholdOf c8wa.length = 7 := by
    norm_num [c8wa, thresholdOf, Int.ceil_eq_iff]
  have hthrc : thresholdOf c8wc.length = 7 := by
    norm_num [c8wc, thresholdOf, Int.ceil_eq_iff]
  have hthrb : thresholdOf c8wb.length = 7 := by
    norm_num [c8wb, thresholdOf, Int.ceil_eq_iff]
  have hthrd : thresholdOf c8wd.length = 7 := by
    norm_num [c8wd, thresholdOf, Int.ceil_eq_iff]
  constructor
  · refine (claim8_amended c8wa c8wb 4 (by decide) (by norm_num)).1 ?_ ?_ ?_ (by decide)
    · rw [hthra]
      decide
    · rw [hthra]
      decide
    · rw [hthrb]
      decide
  · refine (claim8_amended c8wc c8wd 2 (by decide) (by norm_num)).2 ?_ ?_ ?_ (by decide)
    · rw [hthrc]
      decide
    · rw [hthrc]
      decide
    · rw [hthrd]
      decide

/-! ### C5: classification priority order -/

/-- Specification-side rule table for Step B, in the spec's priority order;
each rule pairs a style with its condition on the global statistics. -/
def specResponseStyleRules : List (ResponseStyle × (GlobalStats → Bool)) :=
  [(ResponseStyle.high_acquiescence,
    fun s => decide (s.responses5Percent ≥ 2/5) || decide (s.globalMean ≥ 21/5)),
   (ResponseStyle.low_acquiescence,
    fun s => decide (s.responses1Percent ≥ 2/5) || decide (s.globalMean ≤ 11/5)),
   (ResponseStyle.extreme_style,
    fun s => decide (s.responses5Percent + s.responses1Percent ≥ 3/5) &&
             decide (s.variance < 3/2)),
   (ResponseStyle.central_tendency,
    fun s => decide (s.responses5Percent < 1/10) && decide (s.responses1Percent < 1/10)),
   (ResponseStyle.balanced, fun _ => true)]

/-- Specification-side classifier: the first rule of the table whose
condition holds, in order. -/
def specFirstMatchingStyle (s : GlobalStats) : ResponseStyle :=
  ((specResponseStyleRules.find? (fun p => p.2 s)).map Prod.fst).getD ResponseStyle.balanced

/-- C5: the code's classification cascade returns exactly the first matching
rule of the spec's ordered table; in particular any statistics satisfying the
`high_acquiescence` condition — even if they also satisfy the `extreme_style`
condition — are classified `high_acquiescence`. -/
theorem claim5_priority_order (s : GlobalStats) :
    classifyResponseStyle s = specFirstMatchingStyle s ∧
    ((s.responses5Percent ≥ 2/5 ∨ s.globalMean ≥ 21/5) ∧
     (s.responses5Percent + s.responses1Percent ≥ 3/5 ∧ s.variance < 3/2) →
     classifyResponseStyle s = ResponseStyle.high_acquiescence) := by
  constructor
  · unfold classifyResponseStyle specFirstMatchingStyle specResponseStyleRules
    by_cases hA : s.responses5Percent ≥ 2/5 ∨ s.globalMean ≥ 21/5
    · rw [if_pos hA, List.find?_cons_of_pos _ (by
        rcases hA with h | h <;> simp [h])]
      rfl
    · rw [if_neg hA, List.find?_cons_of_neg _ (by simpa using hA)]
      by_cases hB : s.responses1Percent ≥ 2/5 ∨ s.globalMean ≤ 11/5
      · rw [if_pos hB, List.find?_cons_of_pos _ (by
          rcases hB with h | h <;> simp [h])]
        rfl
      · rw [if_neg hB, List.find?_cons_of_neg _ (by simpa using hB)]
        by_cases hC : s.responses5Percent + s.responses1Percent ≥ 3/5 ∧ s.variance < 3/2
        · rw [if_pos hC, List.find?_cons_of_pos _ (by simp [hC.1, hC.2])]
          rfl
        · rw [if_neg hC, List.find?_cons_of_neg _ (by
            simpa [Decidable.not_and_iff_or_not, not_lt] using hC)]
          by_cases hD : s.responses5Percent < 1/10 ∧ s.responses1Percent < 1/10
          · rw [if_pos hD, List.find?_cons_of_pos _ (by
              simp only [Bool.and_eq_true, decide_eq_true_eq]
              exact hD)]
            rfl
          · rw [if_neg hD, List.find?_cons_of_neg _ (by
              simpa [Decidable.not_and_iff_or_not, not_lt] using hD)]
            rfl
  · intro h
    unfold classifyResponseStyle
    rw [if_pos h.1]

/-- Response list of the C5 witness: nine 5s and one 1 inside one category. -/
def c5data : List (String × List ℚ) := [((r"a"), [5, 5, 5, 5, 5, 5, 5, 5, 5, 1])]

/-- Global statistics of the C5 witness input. -/
def c5stats : GlobalStats := calculateGlobalStats (fun _ => 0) c5data

theorem c5stats_r5 : c5stats.responses5Percent = 9/10 := by
  show (((9 : ℕ) : ℚ)) / ((10 : ℕ) : ℚ) = 9/10
  norm_num

theorem c5stats_r1 : c5stats.responses1Percent = 1/10 := by
  show (((1 : ℕ) : ℚ)) / ((10 : ℕ) : ℚ) = 1/10
  norm_num

/-! ### Characterisation of `calculateGlobalStats` -/

/-- Concatenation of all category response lists, in map order. -/
def allResponses (categoryData : List (String × List ℚ)) : List ℚ :=
  (categoryData.map Prod.snd).flatten

theorem calculateGlobalStats_totalQuestions (f : ℚ → ℚ) (d : List (String × List ℚ)) :
    (calculateGlobalStats f d).totalQuestions = (allResponses d).length := rfl

theorem calculateGlobalStats_globalMean (f : ℚ → ℚ) (d : List (String × List ℚ)) :
    (calculateGlobalStats f d).globalMean =
      (allResponses d).sum / ((allResponses d).length : ℚ) := rfl

theorem calculateGlobalStats_r5 (f : ℚ → ℚ) (d : List (String × List ℚ)) :
    (calculateGlobalStats f d).responses5Percent =
      (((allResponses d).countP (fun v => decide (v = 5)) : ℕ) : ℚ) /
        ((allResponses d).length : ℚ) := rfl

theorem calculateGlobalStats_r1 (f : ℚ → ℚ) (d : List (String × List ℚ)) :
    (calculateGlobalStats f d).responses1Percent =
      (((allResponses d).countP (fun v => decide (v = 1)) : ℕ) : ℚ) /
        ((allResponses d).length : ℚ) := rfl

theorem c5stats_mean : c5stats.globalMean = 23/5 := by
  show (calculateGlobalStats (fun _ => 0) c5data).globalMean = 23/5
  rw [calculateGlobalStats_globalMean]
  rw [show allResponses c5data = [5, 5, 5, 5, 5, 5, 5, 5, 5, 1] from rfl]
  norm_num [List.sum_cons]

theorem c5stats_var : c5stats.variance = 36/25 := by
  show (calculateGlobalStats (fun _ => 0) c5data).variance = 36/25
  show ((allResponses c5data).map
      (fun v => (v - (allResponses c5data).sum / ((allResponses c5data).length : ℚ)) ^ 2)).sum /
      ((allResponses c5data).length : ℚ) = 36/25
  rw [show allResponses c5data = [5, 5, 5, 5, 5, 5, 5, 5, 5, 1] from rfl]
  norm_num [List.sum_cons]

/-- Witness for C5: the witness input satisfies both the high-acquiescence
and the extreme-style conditions, and is classified `high_acquiescence`. -/
theorem claim5_witness :
    (c5stats.responses5Percent ≥ 2/5 ∨ c5stats.globalMean ≥ 21/5) ∧
    (c5stats.responses5Percent + c5stats.responses1Percent ≥ 3/5 ∧ c5stats.variance < 3/2) ∧
    classifyResponseStyle c5stats = ResponseStyle.high_acquiescence := by
  have h1 : c5stats.responses5Percent ≥ 2/5 ∨ c5stats.globalMean ≥ 21/5 :=
    Or.inl (by rw [c5stats_r5]; norm_num)
  have h2 : c5stats.responses5Percent + c5stats.responses1Percent ≥ 3/5 ∧
      c5stats.variance < 3/2 := by
    refine ⟨?_, by rw [c5stats_var]; norm_num⟩
    rw [c5stats_r5, c5stats_r1]
    norm_num
  exact ⟨h1, h2, (claim5_priority_order c5stats).2 ⟨h1, h2⟩⟩

/-! ### C1: validation behaviour of the multi-category entry point -/

theorem correctedCategories_length (sqrtFn : ℚ → ℚ) (opts : CorrectorOptions)
    (d : List (String × List ℚ)) :
    (buildCorrectionBatch sqrtFn opts d).correctedCategories.length = d.length := by
  simp [buildCorrectionBatch, applyCategoryCorrections, calculateCategoryPositioning,
    calculateCategoryScores]

/-- C1 amended: `correctMultiCategory` performs no input validation and never
fails — every call returns the assembled batch — while the separate
`validateCategoryData` method succeeds exactly when every response value lies
in [1, 5]; in particular it accepts the empty map and empty category lists. -/
theorem claim1_amended (sqrtFn : ℚ → ℚ) (opts : CorrectorOptions)
    (d : List (String × List ℚ)) :
    correctMultiCategory sqrtFn opts d =
      Except.ok (buildCorrectionBatch sqrtFn opts d) ∧
    (validateCategoryData d = Except.ok true ↔ ∀ p ∈ d, ∀ v ∈ p.2, 1 ≤ v ∧ v ≤ 5) := by
  refine ⟨rfl, ?_⟩
  unfold validateCategoryData
  cases hf : d.find? (fun p => p.2.any (fun v => decide (v < 1) || decide (v > 5))) with
  | none =>
    simp only [hf]
    constructor
    · intro _ p hp v hv
      have hnp := List.find?_eq_none.mp hf p hp
      simp only [List.any_eq_true, Bool.or_eq_true, decide_eq_true_eq, not_exists,
        not_and, not_or] at hnp
      obtain ⟨h1, h2⟩ := hnp v hv
      exact ⟨not_lt.mp h1, not_lt.mp h2⟩
    · intro _
      trivial
  | some p =>
    simp only [hf]
    constructor
    · intro hc
      exact absurd hc (by simp)
    · intro hall
      exfalso
      have hp := List.mem_of_find?_eq_some hf
      have hpred := List.find?_some hf
      simp only [List.any_eq_true, Bool.or_eq_true, decide_eq_true_eq] at hpred
      obtain ⟨v, hv, hbad⟩ := hpred
      have hr := hall p hp v hv
      rcases hbad with h | h
      · linarith [hr.1]
      · linarith [hr.2]

/-- Input for the C1 counterexample: one category containing the out-of-range
response 6. -/
def c1data : List (String × List ℚ) := [((r"a"), [6])]

/-- C1 counterexample: with a response value 6 outside [1,5], the entry point
does not fail — it returns a batch with one per-category result, whose global
mean 6 shows the invalid value flowed through the computation. -/
theorem claim1_counterexample :
    correctMultiCategory (fun _ => 0) defaultOptions c1data =
      Except.ok (buildCorrectionBatch (fun _ => 0) defaultOptions c1data) ∧
    (buildCorrectionBatch (fun _ => 0) defaultOptions c1data).correctedCategories.length = 1 ∧
    (buildCorrectionBatch (fun _ => 0) defaultOptions c1data).globalStats.globalMean = 6 := by
  refine ⟨rfl, ?_, ?_⟩
  · rw [correctedCategories_length]
    rfl
  · show (calculateGlobalStats (fun _ => 0) c1data).globalMean = 6
    rw [calculateGlobalStats_globalMean, show allResponses c1data = [6] from rfl]
    norm_num

/-- Witness for the amended C1: the entry point succeeds on the invalid
input, and `validateCategoryData` accepts the empty map. -/
theorem claim1_amended_witness :
    correctMultiCategory (fun _ => 0) defaultOptions c1data =
      Except.ok (buildCorrectionBatch (fun _ => 0) defaultOptions c1data) ∧
    validateCategoryData [] = Except.ok true :=
  ⟨(claim1_amended (fun _ => 0) defaultOptions c1data).1,
   (claim1_amended (fun _ => 0) defaultOptions []).2.mpr (by simp)⟩

/-! ### C3: range invariants -/

theorem buildCorrectionBatch_correctedCategories (sqrtFn : ℚ → ℚ)
    (opts : CorrectorOptions) (d : List (String × List ℚ)) :
    (buildCorrectionBatch sqrtFn opts d).correctedCategories =
      applyCategoryCorrections opts
        (calculateCategoryPositioning sqrtFn (calculateCategoryScores d))
        (classifyResponseStyle (calculateGlobalStats sqrtFn d))
        (calculateGlobalCorrection opts
          (classifyResponseStyle (calculateGlobalStats sqrtFn d))
          (calculateGlobalStats sqrtFn d)) := rfl

theorem applyCategoryCorrections_bounds (opts : CorrectorOptions)
    (positioning : List (String × CategoryPosition)) (style : ResponseStyle) (g : ℚ)
    (hms : opts.minScore ≤ opts.maxScore) :
    ∀ pr ∈ applyCategoryCorrections opts positioning style g,
      opts.minScore ≤ pr.2.correctedScore ∧ pr.2.correctedScore ≤ opts.maxScore := by
  intro pr h
  unfold applyCategoryCorrections at h
  simp only [List.mem_map] at h
  obtain ⟨q, hq, he⟩ := h
  subst he
  exact ⟨le_max_left _ _, max_le hms (min_le_left _ _)⟩

/-- C3: on valid inputs the single-scale corrected score lies in
[1.0001, 5.0], and with the default configuration every multi-category
corrected score lies in [1.01, 5.0]. -/
theorem claim3_range_invariant (rs : List ℤ) (h : ValidResponses rs)
    (sqrtFn : ℚ → ℚ) (d : List (String × List ℚ)) (hd : ValidCategoryData d) :
    (calculatePsychologicalScore rs = Except.ok (computeScore rs) ∧
     10001/10000 ≤ (computeScore rs).correctedScore ∧
     (computeScore rs).correctedScore ≤ 5) ∧
    (∀ pr ∈ (buildCorrectionBatch sqrtFn defaultOptions d).correctedCategories,
      101/100 ≤ pr.2.correctedScore ∧ pr.2.correctedScore ≤ 5) := by
  refine ⟨⟨calculate_ok rs h, (correctedScore_bounds rs).1, (correctedScore_bounds rs).2⟩, ?_⟩
  intro pr hpr
  rw [buildCorrectionBatch_correctedCategories] at hpr
  exact applyCategoryCorrections_bounds defaultOptions _ _ _ (by norm_num [defaultOptions]) pr hpr

/-- Witness for C3 at the single-scale input [3] and the one-category map. -/
theorem claim3_witness :
    ValidResponses [3] ∧ ValidCategoryData [((r"a"), [3])] ∧
    (10001/10000 ≤ (computeScore [3]).correctedScore ∧
     (computeScore [3]).correctedScore ≤ 5) ∧
    (101/100 ≤
      (((buildCorrectionBatch (fun _ => 0) defaultOptions
        [((r"a"), [3])]).correctedCategories.get
          ⟨0, by rw [correctedCategories_length]; decide⟩).2.correctedScore) ∧
     (((buildCorrectionBatch (fun _ => 0) defaultOptions
        [((r"a"), [3])]).correctedCategories.get
          ⟨0, by rw [correctedCategories_length]; decide⟩).2.correctedScore) ≤ 5) := by
  have hres := claim3_range_invariant [3] (by decide) (fun _ => 0) [((r"a"), [3])]
    ⟨by decide, by decide⟩
  refine ⟨by decide, ⟨by decide, by decide⟩, ⟨hres.1.2.1, hres.1.2.2⟩, ?_⟩
  exact hres.2 _ (List.get_mem _ _ _)

/-! ### C6: zero-variance differentiation -/

theorem listVariance_const (l : List ℚ) (m : ℚ) (h : ∀ x ∈ l, x = m) :
    listVariance l = 0 := by
  rcases eq_or_ne l [] with rfl | hne
  · simp [listVariance, listMean]
  · have hlen : (l.length : ℚ) ≠ 0 :=
      Nat.cast_ne_zero.mpr (fun hc => hne (List.length_eq_zero.mp hc))
    have hsum : l.sum = (l.length : ℚ) * m := by
      rw [List.sum_eq_card_nsmul l m h]
      simp [nsmul_eq_mul]
    have hmean : listMean l = m := by
      rw [listMean, hsum, mul_comm, mul_div_assoc, div_self hlen, mul_one]
    have hzero : (l.map (fun v => (v - listMean l) ^ 2)).sum = 0 := by
      apply List.sum_eq_zero
      intro x hx
      simp only [List.mem_map] at hx
      obtain ⟨v, hv, rfl⟩ := hx
      rw [h v hv, hmean]
      ring
    rw [listVariance, hzero, zero_div]

theorem lookup_mem_values {β : Type} (l : List (String × β)) (a : String) (b : β)
    (h : l.lookup a = some b) : b ∈ l.map Prod.snd := by
  induction l with
  | nil => simp [List.lookup] at h
  | cons p t ih =>
    rw [List.lookup] at h
    split at h
    · cases h
      exact List.mem_cons_self _ _
    · exact List.mem_cons_of_mem _ (ih h)

theorem cdiTable_value_bounds : ∀ p ∈ cdiTable, -(1/10) ≤ p.2 ∧ p.2 ≤ 3/20 := by
  intro p hp
  simp only [cdiTable, List.mem_cons, List.not_mem_nil, or_false] at hp
  rcases hp with rfl | rfl | rfl | rfl | rfl | rfl | rfl | rfl | rfl | rfl | rfl | rfl |
    rfl | rfl | rfl | rfl | rfl <;> constructor <;> norm_num

theorem getCategoryDifficultyIndex_bounds (categoryId : String) :
    -(1/10) ≤ getCategoryDifficultyIndex categoryId ∧
    getCategoryDifficultyIndex categoryId ≤ 3/20 := by
  simp only [getCategoryDifficultyIndex]
  split
  · rename_i v hl
    have hv := lookup_mem_values _ _ _ hl
    simp only [List.mem_map] at hv
    obtain ⟨p, hp, rfl⟩ := hv
    exact cdiTable_value_bounds p hp
  · split
    · rename_i p hf
      exact cdiTable_value_bounds p (List.mem_of_find?_eq_some hf)
    · norm_num

theorem calculateRelativeFactor_zeroVar (pos : CategoryPosition) (style : ResponseStyle)
    (categoryId : String) :
    calculateRelativeFactor defaultOptions pos style categoryId true =
      1 - getCategoryDifficultyIndex categoryId * (2/25) := by
  obtain ⟨hl, hu⟩ := getCategoryDifficultyIndex_bounds categoryId
  unfold calculateRelativeFactor
  rw [if_pos rfl]
  rw [show defaultOptions.categoryDifficultyAdjustment = 2/25 from rfl]
  show max (23/25) (min (27/25) (1 - getCategoryDifficultyIndex categoryId * (2/25))) = _
  rw [min_eq_right (by linarith), max_eq_right (by linarith)]

theorem relFactor_value_bounds (categoryId : String) :
    247/250 ≤ 1 - getCategoryDifficultyIndex categoryId * (2/25) ∧
    1 - getCategoryDifficultyIndex categoryId * (2/25) ≤ 126/125 := by
  obtain ⟨hl, hu⟩ := getCategoryDifficultyIndex_bounds categoryId
  constructor <;> linarith

theorem isZeroVariance_of_const (opts : CorrectorOptions)
    (scores : List (String × ℚ)) (m : ℚ) (h : ∀ q ∈ scores, q.2 = m)
    (hth : 0 < opts.zeroVarianceThreshold) :
    isZeroVarianceScenario opts scores = true := by
  unfold isZeroVarianceScenario
  rw [decide_eq_true_eq]
  rw [listVariance_const _ m]
  · exact hth
  · intro x hx
    simp only [List.mem_map] at hx
    obtain ⟨q, hq, rfl⟩ := hx
    exact h q hq

theorem mem_calculateCategoryPositioning (sqrtFn : ℚ → ℚ)
    (categoryScores : List (String × ℚ)) (pr : String × CategoryPosition)
    (h : pr ∈ calculateCategoryPositioning sqrtFn categoryScores) :
    ∃ q ∈ categoryScores, pr.1 = q.1 ∧ pr.2.score = q.2 := by
  unfold calculateCategoryPositioning at h
  simp only [List.mem_map] at h
  obtain ⟨q, hq, he⟩ := h
  subst he
  exact ⟨q, hq, rfl, rfl⟩

theorem mem_applyCategoryCorrections (opts : CorrectorOptions)
    (positioning : List (String × CategoryPosition)) (style : ResponseStyle) (g : ℚ)
    (pr : String × CategoryResult) (h : pr ∈ applyCategoryCorrections opts positioning style g) :
    ∃ q ∈ positioning, pr.1 = q.1 ∧
      pr.2.correctedScore = max opts.minScore (min opts.maxScore
        (q.2.score * g * calculateRelativeFactor opts q.2 style q.1
          (isZeroVarianceScenario opts (positioning.map (fun p => (p.1, p.2.score)))))) := by
  unfold applyCategoryCorrections at h
  simp only [List.mem_map] at h
  obtain ⟨q, hq, he⟩ := h
  subst he
  exact ⟨q, hq, rfl, rfl⟩

theorem validResponse_facts (v : ℚ) (h : ValidResponse v) :
    (1 ≤ v ∧ v ≤ 5) ∧ (v = 1 ∨ 2 ≤ v) ∧ (v = 5 ∨ v ≤ 4) := by
  rcases h with rfl | rfl | rfl | rfl | rfl <;> norm_num

theorem allResponses_valid (d : List (String × List ℚ)) (hd : ValidCategoryData d) :
    ∀ v ∈ allResponses d, ValidResponse v := by
  intro v hv
  unfold allResponses at hv
  simp only [List.mem_flatten, List.mem_map] at hv
  obtain ⟨l, ⟨p, hp, rfl⟩, hvl⟩ := hv
  exact (hd.2 p hp).2 v hvl

theorem allResponses_ne_nil (d : List (String × List ℚ)) (hd : ValidCategoryData d) :
    allResponses d ≠ [] := by
  obtain ⟨hne, hall⟩ := hd
  cases d with
  | nil => exact absurd rfl hne
  | cons p t =>
    have hp2 := (hall p (List.mem_cons_self p t)).1
    cases hp : p.2 with
    | nil => exact absurd hp hp2
    | cons v l =>
      have hv : v ∈ allResponses (p :: t) := by
        unfold allResponses
        simp only [List.mem_flatten, List.mem_map]
        exact ⟨p.2, ⟨p, List.mem_cons_self p t, rfl⟩, by rw [hp]; exact List.mem_cons_self v l⟩
      intro hc
      rw [hc] at hv
      exact List.not_mem_nil v hv

theorem allResponses_sum_of_const_scores (d : List (String × List ℚ)) (m : ℚ)
    (hne2 : ∀ p ∈ d, p.2 ≠ [])
    (hm : ∀ p ∈ calculateCategoryScores d, p.2 = m) :
    (allResponses d).sum = m * ((allResponses d).length : ℚ) := by
  induction d with
  | nil => simp [allResponses]
  | cons p t ih =>
    have hplen : (p.2.length : ℚ) ≠ 0 :=
      Nat.cast_ne_zero.mpr (fun hc =>
        hne2 p (List.mem_cons_self p t) (List.length_eq_zero.mp hc))
    have hpscore : p.2.sum / (p.2.length : ℚ) = m := by
      exact hm (p.1, p.2.sum / (p.2.length : ℚ)) (by
        unfold calculateCategoryScores
        rw [List.map_cons]
        exact List.mem_cons_self _ _)
    have hpsum : p.2.sum = m * (p.2.length : ℚ) := by
      rw [div_eq_iff hplen] at hpscore
      linarith [hpscore]
    have ht := ih (fun q hq => hne2 q (List.mem_cons_of_mem p hq))
      (fun q hq => hm q (by
        unfold calculateCategoryScores at hq ⊢
        simp only [List.map_cons, List.mem_cons]
        exact Or.inr hq))
    have hflat : allResponses (p :: t) = p.2 ++ allResponses t := by
      unfold allResponses
      simp
    rw [hflat, List.sum_append, List.length_append, hpsum, ht]
    push_cast
    ring

/-- Inequality pack for the global statistics of a valid category map whose
category means are all `m`: the global mean equals `m` and is linked to the
extreme-response ratios. -/
theorem globalStats_pack (sqrtFn : ℚ → ℚ) (d : List (String × List ℚ)) (m : ℚ)
    (hd : ValidCategoryData d) (hm : ∀ p ∈ calculateCategoryScores d, p.2 = m) :
    (calculateGlobalStats sqrtFn d).globalMean = m ∧
    0 ≤ (calculateGlobalStats sqrtFn d).responses5Percent ∧
    0 ≤ (calculateGlobalStats sqrtFn d).responses1Percent ∧
    (calculateGlobalStats sqrtFn d).responses5Percent +
      (calculateGlobalStats sqrtFn d).responses1Percent ≤ 1 ∧
    1 ≤ m ∧ m ≤ 5 ∧
    1 + 4 * (calculateGlobalStats sqrtFn d).responses5Percent ≤ m ∧
    m ≤ 4 + (calculateGlobalStats sqrtFn d).responses5Percent ∧
    2 - (calculateGlobalStats sqrtFn d).responses1Percent ≤ m ∧
    m ≤ 5 - 4 * (calculateGlobalStats sqrtFn d).responses1Percent := by
  have hv := allResponses_valid d hd
  have hv15 : ∀ v ∈ allResponses d, 1 ≤ v ∧ v ≤ 5 :=
    fun v hvm => (validResponse_facts v (hv v hvm)).1
  have hne := allResponses_ne_nil d hd
  have hn : (0 : ℚ) < ((allResponses d).length : ℚ) := by
    exact_mod_cast List.length_pos.mpr hne
  have hsum : (allResponses d).sum = m * ((allResponses d).length : ℚ) :=
    allResponses_sum_of_const_scores d m (fun p hp => (hd.2 p hp).1) hm
  have hmean : (calculateGlobalStats sqrtFn d).globalMean = m := by
    rw [calculateGlobalStats_globalMean, hsum, mul_div_assoc, div_self hn.ne', mul_one]
  have hc5 : ((allResponses d).length : ℚ) +
      4 * (((allResponses d).countP (fun v => decide (v = 5)) : ℕ) : ℚ) ≤
      m * ((allResponses d).length : ℚ) := by
    rw [← hsum]
    exact list_len_add_four_count5_le_sum (R := ℚ) _ (fun v hvm => (hv15 v hvm).1)
  have hc5u : m * ((allResponses d).length : ℚ) ≤ 4 * ((allResponses d).length : ℚ) +
      (((allResponses d).countP (fun v => decide (v = 5)) : ℕ) : ℚ) := by
    rw [← hsum]
    exact list_sum_le_four_len_add_count5 (R := ℚ) _
      (fun v hvm => (validResponse_facts v (hv v hvm)).2.2)
  have hc1 : 2 * ((allResponses d).length : ℚ) -
      (((allResponses d).countP (fun v => decide (v = 1)) : ℕ) : ℚ) ≤
      m * ((allResponses d).length : ℚ) := by
    rw [← hsum]
    exact list_two_len_sub_count1_le_sum (R := ℚ) _
      (fun v hvm => (validResponse_facts v (hv v hvm)).2.1)
  have hc1u : m * ((allResponses d).length : ℚ) ≤ 5 * ((allResponses d).length : ℚ) -
      4 * (((allResponses d).countP (fun v => decide (v = 1)) : ℕ) : ℚ) := by
    rw [← hsum]
    exact list_sum_le_five_len_sub_four_count1 (R := ℚ) _ (fun v hvm => (hv15 v hvm).2)
  have hlen : ((allResponses d).length : ℚ) ≤ m * ((allResponses d).length : ℚ) := by
    rw [← hsum]
    exact list_len_le_sum (R := ℚ) _ (fun v hvm => (hv15 v hvm).1)
  have hlenu : m * ((allResponses d).length : ℚ) ≤ 5 * ((allResponses d).length : ℚ) := by
    rw [← hsum]
    exact list_sum_le_five_len (R := ℚ) _ (fun v hvm => (hv15 v hvm).2)
  have hcc : (((allResponses d).countP (fun v => decide (v = 5)) : ℕ) : ℚ) +
      (((allResponses d).countP (fun v => decide (v = 1)) : ℕ) : ℚ) ≤
      ((allResponses d).length : ℚ) := by
    exact_mod_cast list_count5_add_count1_le_len (R := ℚ) (allResponses d)
  have hm1 : 1 ≤ m := by
    rw [← mul_le_mul_right hn, one_mul]
    exact hlen
  have hm5 : m ≤ 5 := by
    rw [← mul_le_mul_right hn]
    exact hlenu
  rw [calculateGlobalStats_r5, calculateGlobalStats_r1]
  refine ⟨hmean, div_nonneg (Nat.cast_nonneg _) hn.le, div_nonneg (Nat.cast_nonneg _) hn.le,
    ?_, hm1, hm5, ?_, ?_, ?_, ?_⟩
  · rw [div_add_div_same, div_le_one hn]
    exact hcc
  · rw [← mul_le_mul_right hn]
    have hexp : (1 + 4 * ((((allResponses d).countP (fun v => decide (v = 5)) : ℕ) : ℚ) /
        ((allResponses d).length : ℚ))) * ((allResponses d).length : ℚ) =
        ((allResponses d).length : ℚ) +
          4 * (((allResponses d).countP (fun v => decide (v = 5)) : ℕ) : ℚ) := by
      field_simp
    rw [hexp]
    exact hc5
  · rw [← mul_le_mul_right hn]
    have hexp : (4 + (((allResponses d).countP (fun v => decide (v = 5)) : ℕ) : ℚ) /
        ((allResponses d).length : ℚ)) * ((allResponses d).length : ℚ) =
        4 * ((allResponses d).length : ℚ) +
          (((allResponses d).countP (fun v => decide (v = 5)) : ℕ) : ℚ) := by
      field_simp
    rw [hexp]
    exact hc5u
  · rw [← mul_le_mul_right hn]
    have hexp : (2 - (((allResponses d).countP (fun v => decide (v = 1)) : ℕ) : ℚ) /
        ((allResponses d).length : ℚ)) * ((allResponses d).length : ℚ) =
        2 * ((allResponses d).length : ℚ) -
          (((allResponses d).countP (fun v => decide (v = 1)) : ℕ) : ℚ) := by
      field_simp
    rw [hexp]
    exact hc1
  · rw [← mul_le_mul_right hn]
    have hexp : (5 - 4 * ((((allResponses d).countP (fun v => decide (v = 1)) : ℕ) : ℚ) /
        ((allResponses d).length : ℚ))) * ((allResponses d).length : ℚ) =
        5 * ((allResponses d).length : ℚ) -
          4 * (((allResponses d).countP (fun v => decide (v = 1)) : ℕ) : ℚ) := by
      field_simp
    rw [hexp]
    exact hc1u

theorem gc_high_default (s : GlobalStats) :
    calculateGlobalCorrection defaultOptions ResponseStyle.high_acquiescence s =
      max (7/10) (min (13/10) (1 - min (3/10) (s.responses5Percent * (1/2)))) := rfl

theorem gc_low_default (s : GlobalStats) :
    calculateGlobalCorrection defaultOptions ResponseStyle.low_acquiescence s =
      max (7/10) (min (13/10) (1 + min (3/10) (s.responses1Percent * (1/2)))) := rfl

theorem gc_extreme_default (s : GlobalStats) :
    calculateGlobalCorrection defaultOptions ResponseStyle.extreme_style s =
      max (7/10) (min (13/10)
        (1 - min (3/20) ((s.responses5Percent + s.responses1Percent) * (1/5)))) := rfl

theorem gc_central_default (s : GlobalStats) :
    calculateGlobalCorrection defaultOptions ResponseStyle.central_tendency s =
      max (7/10) (min (13/10) (21/20)) := rfl

theorem gc_balanced_default (s : GlobalStats) :
    calculateGlobalCorrection defaultOptions ResponseStyle.balanced s =
      max (7/10) (min (13/10) 1) := rfl

/-- Product of the global mean with the default global correction factor is
always between 1.3 and 4.42 when the statistics satisfy the inequality pack
of a valid input. -/
theorem mean_mul_globalFactor_bounds (s : GlobalStats)
    (h0 : 0 ≤ s.responses5Percent) (h0' : 0 ≤ s.responses1Percent)
    (hsum : s.responses5Percent + s.responses1Percent ≤ 1)
    (h1 : 1 ≤ s.globalMean) (h5 : s.globalMean ≤ 5)
    (hA : 1 + 4 * s.responses5Percent ≤ s.globalMean)
    (hB : s.globalMean ≤ 4 + s.responses5Percent)
    (hC : 2 - s.responses1Percent ≤ s.globalMean)
    (hD : s.globalMean ≤ 5 - 4 * s.responses1Percent) :
    13/10 ≤ s.globalMean *
        calculateGlobalCorrection defaultOptions (classifyResponseStyle s) s ∧
    s.globalMean * calculateGlobalCorrection defaultOptions (classifyResponseStyle s) s ≤
      221/50 := by
  have hr5le : s.responses5Percent ≤ 1 := by linarith
  have hr1le : s.responses1Percent ≤ 1 := by linarith
  unfold classifyResponseStyle
  split_ifs with hhi hlo hex hce
  · rw [gc_high_default]
    rcases le_total (s.responses5Percent * (1/2)) (3/10) with hmn | hmn
    · rw [min_eq_right hmn, min_eq_right (by linarith), max_eq_right (by linarith)]
      constructor
      · rcases hhi with h | h
        · nlinarith [mul_le_mul_of_nonneg_right hA
            (show (0:ℚ) ≤ 1 - s.responses5Percent * (1/2) by linarith),
            mul_nonneg (show (0:ℚ) ≤ s.responses5Percent - 2/5 by linarith)
              (show (0:ℚ) ≤ 3/5 - s.responses5Percent by linarith)]
        · nlinarith [mul_le_mul_of_nonneg_right h
            (show (0:ℚ) ≤ 1 - s.responses5Percent * (1/2) by linarith)]
      · nlinarith [mul_le_mul_of_nonneg_right hB
          (show (0:ℚ) ≤ 1 - s.responses5Percent * (1/2) by linarith),
          mul_nonneg h0 h0]
    · rw [min_eq_left hmn, show (1:ℚ) - 3/10 = 7/10 from by norm_num,
        min_eq_right (by norm_num), max_eq_right (by norm_num)]
      constructor
      · linarith
      · linarith
  · rw [gc_low_default]
    push_neg at hhi
    rcases le_total (s.responses1Percent * (1/2)) (3/10) with hmn | hmn
    · rw [min_eq_right hmn, min_eq_right (by linarith), max_eq_right (by linarith)]
      constructor
      · nlinarith [mul_le_mul_of_nonneg_right hC
          (show (0:ℚ) ≤ 1 + s.responses1Percent * (1/2) by linarith),
          mul_nonneg (show (0:ℚ) ≤ 1 - s.responses1Percent by linarith)
            (show (0:ℚ) ≤ 1 + s.responses1Percent by linarith)]
      · rcases hlo with h | h
        · nlinarith [mul_le_mul_of_nonneg_right hD
            (show (0:ℚ) ≤ 1 + s.responses1Percent * (1/2) by linarith),
            mul_nonneg (show (0:ℚ) ≤ s.responses1Percent - 2/5 by linarith) h0']
        · nlinarith [mul_le_mul_of_nonneg_right h
            (show (0:ℚ) ≤ 1 + s.responses1Percent * (1/2) by linarith)]
    · rw [min_eq_left hmn, show (1:ℚ) + 3/10 = 13/10 from by norm_num,
        min_self, max_eq_right (by norm_num)]
      constructor
      · linarith
      · linarith
  · rw [gc_extreme_default]
    push_neg at hhi hlo
    have hmn0 : 0 ≤ min (3/20 : ℚ) ((s.responses5Percent + s.responses1Percent) * (1/5)) :=
      le_min (by norm_num) (mul_nonneg (by linarith) (by norm_num))
    have hmn1 : min (3/20 : ℚ) ((s.responses5Percent + s.responses1Percent) * (1/5)) ≤
        3/20 := min_le_left _ _
    rw [min_eq_right (by linarith), max_eq_right (by linarith)]
    constructor
    · nlinarith [mul_nonneg (show (0:ℚ) ≤ s.globalMean - 11/5 by linarith [hlo.2])
        (show (0:ℚ) ≤ (1 - min (3/20 : ℚ)
          ((s.responses5Percent + s.responses1Percent) * (1/5))) - 17/20 by linarith)]
    · nlinarith [mul_le_mul_of_nonneg_left
        (show 1 - min (3/20 : ℚ) ((s.responses5Percent + s.responses1Percent) * (1/5)) ≤ 1
          by linarith)
        (show (0:ℚ) ≤ s.globalMean by linarith)]
  · rw [gc_central_default, min_eq_right (show (21:ℚ)/20 ≤ 13/10 from by norm_num),
      max_eq_right (show (7:ℚ)/10 ≤ 21/20 from by norm_num)]
    push_neg at hhi hlo
    constructor
    · linarith [hlo.2]
    · linarith [hhi.2]
  · rw [gc_balanced_default, min_eq_right (show (1:ℚ) ≤ 13/10 from by norm_num),
      max_eq_right (show (7:ℚ)/10 ≤ 1 from by norm_num), mul_one]
    push_neg at hhi hlo
    constructor
    · linarith [hlo.2]
    · linarith [hhi.2]

/-- C6: in zero-variance mode (all category means identical), two categories
whose identifiers resolve to different Category Difficulty Index values
receive different corrected scores: the shared `mean * globalFactor` product
lies in [1.3, 4.42], the CDI relative factors lie in [0.988, 1.008] and are
injective in the CDI, and the final clamp to [1.01, 5] does not bind. -/
theorem claim6_zero_variance_differentiation (sqrtFn : ℚ → ℚ)
    (d : List (String × List ℚ)) (m : ℚ) (hd : ValidCategoryData d)
    (hm : ∀ p ∈ calculateCategoryScores d, p.2 = m) (i j : ℕ)
    (hi : i < (buildCorrectionBatch sqrtFn defaultOptions d).correctedCategories.length)
    (hj : j < (buildCorrectionBatch sqrtFn defaultOptions d).correctedCategories.length)
    (hcdi : getCategoryDifficultyIndex
        (((buildCorrectionBatch sqrtFn defaultOptions d).correctedCategories.get ⟨i, hi⟩).1) ≠
      getCategoryDifficultyIndex
        (((buildCorrectionBatch sqrtFn defaultOptions d).correctedCategories.get ⟨j, hj⟩).1)) :
    (((buildCorrectionBatch sqrtFn defaultOptions d).correctedCategories.get
        ⟨i, hi⟩).2).correctedScore ≠
    (((buildCorrectionBatch sqrtFn defaultOptions d).correctedCategories.get
        ⟨j, hj⟩).2).correctedScore := by
  have hzv : isZeroVarianceScenario defaultOptions
      ((calculateCategoryPositioning sqrtFn (calculateCategoryScores d)).map
        (fun p => (p.1, p.2.score))) = true := by
    apply isZeroVariance_of_const defaultOptions _ m
    · intro q hq
      simp only [List.mem_map] at hq
      obtain ⟨p, hp, rfl⟩ := hq
      obtain ⟨sc, hsc, _, hscore⟩ := mem_calculateCategoryPositioning _ _ _ hp
      rw [hscore]
      exact hm sc hsc
    · norm_num [defaultOptions]
  obtain ⟨hmean, hp0, hp0', hpsum, hm1, hm5, hpA, hpB, hpC, hpD⟩ :=
    globalStats_pack sqrtFn d m hd hm
  have hbounds := mean_mul_globalFactor_bounds (calculateGlobalStats sqrtFn d)
    hp0 hp0' hpsum (hmean ▸ hm1) (hmean ▸ hm5) (hmean ▸ hpA) (hmean ▸ hpB)
    (hmean ▸ hpC) (hmean ▸ hpD)
  rw [hmean] at hbounds
  have entryValue : ∀ (k : ℕ)
      (hk : k < (buildCorrectionBatch sqrtFn defaultOptions d).correctedCategories.length),
      (((buildCorrectionBatch sqrtFn defaultOptions d).correctedCategories.get
        ⟨k, hk⟩).2).correctedScore =
        m * calculateGlobalCorrection defaultOptions
            (classifyResponseStyle (calculateGlobalStats sqrtFn d))
            (calculateGlobalStats sqrtFn d) *
          (1 - getCategoryDifficultyIndex
            (((buildCorrectionBatch sqrtFn defaultOptions d).correctedCategories.get
              ⟨k, hk⟩).1) * (2/25)) := by
    intro k hk
    have hmem := List.get_mem
      ((buildCorrectionBatch sqrtFn defaultOptions d).correctedCategories) k hk
    obtain ⟨q, hq, hid, hcs⟩ := mem_applyCategoryCorrections defaultOptions
      (calculateCategoryPositioning sqrtFn (calculateCategoryScores d))
      (classifyResponseStyle (calculateGlobalStats sqrtFn d))
      (calculateGlobalCorrection defaultOptions
        (classifyResponseStyle (calculateGlobalStats sqrtFn d))
        (calculateGlobalStats sqrtFn d))
      ((buildCorrectionBatch sqrtFn defaultOptions d).correctedCategories.get ⟨k, hk⟩) hmem
    obtain ⟨sc, hsc, _, hqscore⟩ := mem_calculateCategoryPositioning _ _ _ hq
    have hscm : q.2.score = m := by
      rw [hqscore]
      exact hm sc hsc
    rw [hzv, calculateRelativeFactor_zeroVar, hscm, ← hid,
      show defaultOptions.minScore = 101/100 from rfl,
      show defaultOptions.maxScore = 5 from rfl] at hcs
    obtain ⟨hrl, hru⟩ := relFactor_value_bounds
      (((buildCorrectionBatch sqrtFn defaultOptions d).correctedCategories.get ⟨k, hk⟩).1)
    have hvl : (101 : ℚ)/100 ≤
        m * calculateGlobalCorrection defaultOptions
          (classifyResponseStyle (calculateGlobalStats sqrtFn d))
          (calculateGlobalStats sqrtFn d) *
        (1 - getCategoryDifficultyIndex
          (((buildCorrectionBatch sqrtFn defaultOptions d).correctedCategories.get
            ⟨k, hk⟩).1) * (2/25)) := by
      nlinarith [hbounds.1, hbounds.2, hrl, hru]
    have hvu : m * calculateGlobalCorrection defaultOptions
          (classifyResponseStyle (calculateGlobalStats sqrtFn d))
          (calculateGlobalStats sqrtFn d) *
        (1 - getCategoryDifficultyIndex
          (((buildCorrectionBatch sqrtFn defaultOptions d).correctedCategories.get
            ⟨k, hk⟩).1) * (2/25)) ≤ 5 := by
      nlinarith [hbounds.1, hbounds.2, hrl, hru]
    rw [min_eq_right hvu, max_eq_right hvl] at hcs
    exact hcs
  intro heq
  rw [entryValue i hi, entryValue j hj] at heq
  have hmg : (0 : ℚ) <
      m * calculateGlobalCorrection defaultOptions
        (classifyResponseStyle (calculateGlobalStats sqrtFn d))
        (calculateGlobalStats sqrtFn d) := by
    linarith [hbounds.1]
  have hrf := mul_left_cancel₀ hmg.ne' heq
  have hcdieq : getCategoryDifficultyIndex
      (((buildCorrectionBatch sqrtFn defaultOptions d).correctedCategories.get ⟨i, hi⟩).1) =
      getCategoryDifficultyIndex
      (((buildCorrectionBatch sqrtFn defaultOptions d).correctedCategories.get ⟨j, hj⟩).1) := by
    have h2 : getCategoryDifficultyIndex
        (((buildCorrectionBatch sqrtFn defaultOptions d).correctedCategories.get
          ⟨i, hi⟩).1) * (2/25) =
        getCategoryDifficultyIndex
        (((buildCorrectionBatch sqrtFn defaultOptions d).correctedCategories.get
          ⟨j, hj⟩).1) * (2/25) := by
      linarith [hrf]
    exact mul_right_cancel₀ (show (2/25 : ℚ) ≠ 0 from by norm_num) h2
  exact hcdi hcdieq

/-- Zero-variance witness data: two categories with identical means and
different CDI values (leadership 0.15, teamwork 0.00). -/
def c6data : List (String × List ℚ) :=
  [((r"leadership"), [5, 5, 5, 5, 5]), ((r"teamwork"), [5, 5, 5, 5, 5])]

/-- Witness for C6: the two categories of `c6data` obtain different corrected
scores. -/
theorem claim6_witness :
    (((buildCorrectionBatch (fun _ => 0) defaultOptions c6data).correctedCategories.get
       ⟨0, by rw [correctedCategories_length]; decide⟩).2).correctedScore ≠
    (((buildCorrectionBatch (fun _ => 0) defaultOptions c6data).correctedCategories.get
       ⟨1, by rw [correctedCategories_length]; decide⟩).2).correctedScore := by
  apply claim6_zero_variance_differentiation (fun _ => 0) c6data 5 (by decide)
  · intro p hp
    simp only [calculateCategoryScores, c6data, List.map_cons, List.map_nil,
      List.mem_cons, List.not_mem_nil, or_false] at hp
    rcases hp with rfl | rfl <;>
      norm_num [List.sum_cons, List.sum_nil, List.length_cons, List.length_nil]
  · show getCategoryDifficultyIndex (r"leadership") ≠ getCategoryDifficultyIndex (r"teamwork")
    rw [show getCategoryDifficultyIndex (r"leadership") = 3/20 from rfl,
      show getCategoryDifficultyIndex (r"teamwork") = 0 from rfl]
    norm_num
